import Mathlib

/-!
# SafarAI run orchestrator — shallow embedding

This file embeds the run-orchestrator logic of `backend/server.py` of the
SafarAI repository in Lean 4 and proves the frozen specification claims about
it.  External capabilities (the Firecrawl fetch adapter, the LLM classifier,
the SHA-256 digest and the Resend email capability) are modelled as oracle
functions supplied through an `Env` record; everything the orchestrator itself
does (change detection, link selection, counter accumulation, terminal status,
brief/dispatch gating, run-log appends) is translated function-by-function
from the source.  Wall-clock timestamps and UUIDs are modelled by counters
(`clock`, `fresh`) threaded through the state: each Python
`datetime.now(...)` / `uuid.uuid4()` call site draws the current counter
value, which then advances, so distinct call sites observe distinct values —
exactly what the claims about "first-fetched time" versus "last-seen time"
need.
-/

namespace SafarAI

/-- Python's substring test `pat in s` (used by `filter_link` via the `in`
operator on lowered URL text). -/
def strContains (s pat : String) : Bool :=
  decide (pat.toList <:+: s.toList)

/-- Python's `url.lower()` as used by `filter_link`: lowercase the text
character by character. -/
def str_lower (s : String) : String :=
  String.mk (s.data.map Char.toLower)

/-- Constant `KEYWORDS` from `server.py` — URL-text keywords for link filtering. -/
def KEYWORDS : List String :=
  ["press", "news", "blog", "partnership", "partner", "alliance", "collaboration",
   "funding", "investment", "acquisition", "campaign", "deal", "package", "offer",
   "discount", "promotion", "vacation", "resort", "special offer", "announcement"]

/-- Constant `BLOCKED_DOMAINS` from `server.py` — blocked (social-media) domains. -/
def BLOCKED_DOMAINS : List String :=
  ["facebook.com", "twitter.com", "instagram.com", "linkedin.com",
   "youtube.com", "tiktok.com", "pinterest.com", "x.com"]

/-- Function `compute_hash` from `server.py` lines 146–147:
`hashlib.sha256(content[:12000].encode()).hexdigest()`.  The SHA-256 digest is
an external deterministic function; it is abstracted as the parameter
`sha256hex : String → String` (encode ∘ sha256 ∘ hexdigest composed), while
the part the orchestrator owns — bounding to the first 12,000 characters —
is translated literally. -/
def compute_hash (sha256hex : String → String) (content : String) : String :=
  sha256hex (content.take 12000)

/-- Function `filter_link` from `server.py` lines 149–154: lowercase the URL, reject it
when any blocked domain occurs as a substring, otherwise accept exactly when
some keyword occurs as a substring. -/
def filter_link (url : String) : Bool :=
  let url_lower := str_lower url
  if BLOCKED_DOMAINS.any (fun domain => strContains url_lower domain) then
    false
  else
    KEYWORDS.any (fun kw => strContains url_lower kw)

/-- The Link Selector: `filtered_links = [l for l in links if filter_link(l)][:8]`
(`server.py` line 490). -/
def select_links (links : List String) : List String :=
  (links.filter filter_link).take 8

/-- The `Item` document (`server.py` class `Item`).  UUIDs are `Nat` drawn
from the `fresh` counter; `fetched_at` / `last_seen_at` are `Nat` clock
values. -/
structure Item where
  id : Nat
  source_id : String
  url : String
  title : String
  content_text : String
  content_type : String
  content_hash : String
  fetched_at : Nat
  last_seen_at : Nat
deriving Repr, DecidableEq

/-- The structured classification payload returned by the classifier adapter
(the JSON shape demanded by the prompt in `classify_content`).  `confidence`
is a `ℚ` stand-in for the JSON number; no orchestrator logic inspects it. -/
structure Classification where
  company : String
  event_type : String
  title : String
  summary : String
  why_it_matters : String
  materiality_score : Int
  confidence : ℚ
  key_entities : List (String × List String)
  evidence_quotes : List String
  source_url : String
deriving Repr, DecidableEq

/-- The `Event` document (`server.py` class `Event`), built from a
`Classification` via `Event(run_id=..., item_id=..., **classification)`. -/
structure Event where
  id : Nat
  run_id : String
  item_id : Nat
  company : String
  event_type : String
  title : String
  summary : String
  why_it_matters : String
  materiality_score : Int
  confidence : ℚ
  key_entities : List (String × List String)
  evidence_quotes : List String
  source_url : String
  created_at : Nat
deriving Repr, DecidableEq

/-- One `run_logs` document as written by `log_run` (`server.py` lines
156–164); the structured `meta` payload is not needed by any claim and is
omitted. -/
structure RunLog where
  run_id : String
  level : String
  message : String
deriving Repr, DecidableEq

/-- The mutable `run_data` counter dictionary of `run_pipeline`
(`server.py` lines 447–456). -/
structure RunData where
  sources_total : Nat
  sources_ok : Nat
  sources_failed : Nat
  items_total : Nat
  items_new : Nat
  items_updated : Nat
  items_unchanged : Nat
  events_created : Nat
deriving Repr, DecidableEq

/-- A persisted `briefs` document (`server.py` lines 640–647); the rendered
HTML is presentation and is not modelled. -/
structure Brief where
  id : Nat
  run_id : String
  events : List Event
deriving Repr, DecidableEq

/-- The `runs` document: created by `trigger_run` with status `"running"` and
zeroed counters, overwritten once by the `$set` at `server.py` lines
654–662 with the final counters, status and `emails_sent`. -/
structure RunRecord where
  status : String
  sources_total : Nat
  sources_ok : Nat
  sources_failed : Nat
  items_total : Nat
  items_new : Nat
  items_updated : Nat
  items_unchanged : Nat
  events_created : Nat
  emails_sent : Nat
deriving Repr, DecidableEq

/-- A `sources` document (`server.py` class `Source`). -/
structure Source where
  id : String
  name : String
  url : String
  category : String
  active : Bool
deriving Repr, DecidableEq

/-- Outcome of one `firecrawl.scrape` call: the adapter raised (`error`), the
call returned a falsy/empty result (`empty`), or it returned a document with
markdown text, a title and outbound links (`page`).  The two duck-typed
response shapes of the source both normalize to `page`. -/
inductive FetchOutcome where
  | error
  | empty
  | page (markdown : String) (title : String) (links : List String)
deriving Repr, DecidableEq

/-- A classifier response that parsed as JSON (a dict, after
`result["source_url"] = url` is forced): either it validates against the
Event schema, yielding a structured payload (`valid`), or it is a dict that
does not match the schema, so that `Event(**classification)` in
`run_pipeline` (`server.py` lines 530 and 598) raises a pydantic
`ValidationError` (`invalid`). -/
inductive ParsedDict where
  | valid (c : Classification)
  | invalid
deriving Repr, DecidableEq

/-- Outcome of one classifier call as seen by `classify_content`: the model
answered `null` (`isNull`), the response could not be parsed as JSON at all
or the call raised (`malformed`), or it parsed into a dict (`ok`) — which
may or may not match the Event schema. -/
inductive ClassifyResponse where
  | isNull
  | malformed
  | ok (d : ParsedDict)
deriving Repr, DecidableEq

/-- External capabilities consumed by the pipeline: the SHA-256 digest, the
fetch adapter, the classifier, and the email configuration/outcome
(`SAFARAI_RECIPIENTS` and whether `resend.Emails.send` succeeds). -/
structure Env where
  sha256hex : String → String
  fetch : String → FetchOutcome
  classify : String → String → String → ClassifyResponse
  recipients : List String
  sendOk : Bool

/-- Function `classify_content` (`server.py` lines 170–241): the literal
`null`, a JSON-unparseable response and a raised exception are absorbed and
yield `None`; any JSON-parseable dict is returned as-is with
`result["source_url"] = url` forced.  Schema validation does NOT happen
here — it happens later, at `Event(**classification)` inside
`run_pipeline`, which raises for a dict that does not match the schema. -/
def classify_content (env : Env) (content url title : String) : Option ParsedDict :=
  match env.classify content url title with
  | .isNull => none
  | .malformed => none
  | .ok (.valid c) => some (.valid { c with source_url := url })
  | .ok .invalid => some .invalid

/-- The three change-detection outcomes. -/
inductive DetectAction where
  | NEW
  | UPDATED
  | UNCHANGED
deriving Repr, DecidableEq

/-- The change-detection decision of `run_pipeline` (`server.py` lines
497–501 and 569–571): `is_new = existing is None`,
`is_updated = existing and existing.get('content_hash') != content_hash`,
then the branch `if is_new or is_updated: (insert | update) else: unchanged`. -/
def detect_action (existing : Option Item) (content_hash : String) : DetectAction :=
  let is_new := existing.isNone
  let is_updated :=
    match existing with
    | none => false
    | some ex => ex.content_hash != content_hash
  if is_new then .NEW
  else if is_updated then .UPDATED
  else .UNCHANGED

/-- Operation `db.items.update_one({"url": url}, {"$set": ...})`: rewrite the first
document whose `url` matches. -/
def updateItemByUrl (items : List Item) (url : String) (f : Item → Item) : List Item :=
  match items with
  | [] => []
  | it :: rest =>
      if it.url == url then f it :: rest
      else it :: updateItemByUrl rest url f

/-- The whole mutable state threaded through one `run_pipeline` execution:
the `items`, `events`, `run_logs` and `briefs` collections, the run's local
`all_events` list and `run_data` counters, the clock / fresh-id counters, a
count of actual email-send calls, and the run document. -/
structure PipelineState where
  items : List Item
  events : List Event
  all_events : List Event
  logs : List RunLog
  briefs : List Brief
  run_data : RunData
  clock : Nat
  fresh : Nat
  send_calls : Nat
  run_doc : RunRecord
deriving Repr, DecidableEq

/-- Function `log_run` (`server.py` lines 156–164): append one log document for the
run. -/
def log_run (st : PipelineState) (run_id level message : String) : PipelineState :=
  { st with logs := st.logs ++ [{ run_id := run_id, level := level, message := message }] }

/-- The shared NEW/UPDATED persistence-and-classification block
(`server.py` lines 502–539 for the root page, 573–607 for a child link):
construct a fresh `Item` (fresh id, current timestamps, content bounded to
50,000 characters), insert it when NEW or overwrite the stored document
wholesale when UPDATED, bump the matching counter, then classify and — only
on a structured result — persist an `Event` and bump `events_created`.

First, the `Item(...)` constructor call (`server.py` lines 503–510 and
574–581): a fresh UUID (`fresh` counter) and current timestamps (`clock`),
content text bounded to 50,000 characters, content type `"html"`. -/
def fresh_item (source_id url markdown title content_hash : String)
    (st : PipelineState) : Item :=
  { id := st.fresh, source_id := source_id, url := url, title := title,
    content_text := markdown.take 50000, content_type := "html",
    content_hash := content_hash, fetched_at := st.clock, last_seen_at := st.clock }

/-- The NEW/UPDATED persistence-and-classification block proper (see the
comment on `fresh_item` for the constructor part).  On a dict that fails
Event-schema validation, `Event(**classification)` (`server.py` line 530 /
598) raises: the `.error` outcome carries the state as mutated so far (the
Item write and the NEW/UPDATED counter bump have already happened and are
not rolled back), and the event insert, `events_created` bump and the
enclosing `items_total` bump never run. -/
def persist_and_classify (env : Env) (run_id source_id url markdown title content_hash : String)
    (is_new : Bool) (st : PipelineState) : Except PipelineState PipelineState :=
  let item : Item := fresh_item source_id url markdown title content_hash st
  let st := { st with fresh := st.fresh + 1, clock := st.clock + 1 }
  let st :=
    if is_new then
      { st with items := st.items ++ [item],
                run_data := { st.run_data with items_new := st.run_data.items_new + 1 } }
    else
      { st with items := updateItemByUrl st.items url (fun _ => item),
                run_data := { st.run_data with items_updated := st.run_data.items_updated + 1 } }
  match classify_content env markdown url title with
  | none => .ok st
  | some .invalid => .error st
  | some (.valid c) =>
      let event : Event :=
        { id := st.fresh, run_id := run_id, item_id := item.id,
          company := c.company, event_type := c.event_type, title := c.title,
          summary := c.summary, why_it_matters := c.why_it_matters,
          materiality_score := c.materiality_score, confidence := c.confidence,
          key_entities := c.key_entities, evidence_quotes := c.evidence_quotes,
          source_url := c.source_url, created_at := st.clock }
      .ok { st with fresh := st.fresh + 1, clock := st.clock + 1,
                    events := st.events ++ [event],
                    all_events := st.all_events ++ [event],
                    run_data := { st.run_data with events_created := st.run_data.events_created + 1 } }

/-- Root-page processing (`server.py` lines 495–547): compute the
fingerprint, look the URL up, branch on the change-detection decision
(UNCHANGED only bumps the counter and refreshes `last_seen_at`; NEW/UPDATED
run `persist_and_classify`), then bump `items_total`.  A raise inside
`persist_and_classify` (schema-invalid classification) propagates, skipping
the `items_total += 1` of line 547. -/
def process_root_content (env : Env) (run_id source_id source_url markdown title : String)
    (st : PipelineState) : Except PipelineState PipelineState :=
  let content_hash := compute_hash env.sha256hex markdown
  let existing := st.items.find? (fun it => it.url == source_url)
  match detect_action existing content_hash with
  | .NEW =>
      match persist_and_classify env run_id source_id source_url markdown title content_hash true st with
      | .ok st =>
          .ok { st with run_data := { st.run_data with items_total := st.run_data.items_total + 1 } }
      | .error st => .error st
  | .UPDATED =>
      match persist_and_classify env run_id source_id source_url markdown title content_hash false st with
      | .ok st =>
          .ok { st with run_data := { st.run_data with items_total := st.run_data.items_total + 1 } }
      | .error st => .error st
  | .UNCHANGED =>
      let st := { st with
          run_data := { st.run_data with items_unchanged := st.run_data.items_unchanged + 1 },
          items := updateItemByUrl st.items source_url (fun it => { it with last_seen_at := st.clock }),
          clock := st.clock + 1 }
      .ok { st with run_data := { st.run_data with items_total := st.run_data.items_total + 1 } }

/-- Child-link processing (`server.py` lines 550–614): the whole body runs
inside the inner `try`, so a raised fetch error AND a raised
`Event(**classification)` validation error are both caught at line 613 and
logged at warn level; a falsy fetch result is skipped silently; a fetched
page goes through the same change-detection branch as the root — except
that the UNCHANGED branch for links does not touch `last_seen_at` — and
then bumps `items_total` (skipped when the classification raised). -/
def process_link (env : Env) (run_id source_id : String) (st : PipelineState)
    (link_url : String) : PipelineState :=
  match env.fetch link_url with
  | .error =>
      log_run st run_id "warn" s!"Failed to process link: {link_url}"
  | .empty => st
  | .page link_markdown link_title _ =>
      let link_hash := compute_hash env.sha256hex link_markdown
      let link_existing := st.items.find? (fun it => it.url == link_url)
      match detect_action link_existing link_hash with
      | .NEW =>
          match persist_and_classify env run_id source_id link_url link_markdown link_title link_hash true st with
          | .ok st =>
              { st with run_data := { st.run_data with items_total := st.run_data.items_total + 1 } }
          | .error st =>
              log_run st run_id "warn" s!"Failed to process link: {link_url}"
      | .UPDATED =>
          match persist_and_classify env run_id source_id link_url link_markdown link_title link_hash false st with
          | .ok st =>
              { st with run_data := { st.run_data with items_total := st.run_data.items_total + 1 } }
          | .error st =>
              log_run st run_id "warn" s!"Failed to process link: {link_url}"
      | .UNCHANGED =>
          let st := { st with
              run_data := { st.run_data with items_unchanged := st.run_data.items_unchanged + 1 } }
          { st with run_data := { st.run_data with items_total := st.run_data.items_total + 1 } }

/-- One iteration of the per-source loop (`server.py` lines 460–620): log the
source, fetch its root; a raised error or an empty result takes the `except`
path (bump `sources_failed`, error log); otherwise select links, log the
count, process the root page, process the first three selected links, and
bump `sources_ok`. -/
def process_source (env : Env) (run_id : String) (st : PipelineState)
    (source : Source) : PipelineState :=
  let st := log_run st run_id "info" s!"Processing source: {source.name}"
  match env.fetch source.url with
  | .error =>
      let st := { st with
        run_data := { st.run_data with sources_failed := st.run_data.sources_failed + 1 } }
      log_run st run_id "error" s!"Failed to process source: {source.name}"
  | .empty =>
      let st := { st with
        run_data := { st.run_data with sources_failed := st.run_data.sources_failed + 1 } }
      log_run st run_id "error" s!"Failed to process source: {source.name}"
  | .page markdown title links =>
      let filtered_links := select_links links
      let n := filtered_links.length
      let name := source.name
      let st := log_run st run_id "info" s!"Found {n} relevant links from {name}"
      match process_root_content env run_id source.id source.url markdown title st with
      | .error st =>
          let st := { st with
            run_data := { st.run_data with sources_failed := st.run_data.sources_failed + 1 } }
          log_run st run_id "error" s!"Failed to process source: {source.name}"
      | .ok st =>
          let st := (filtered_links.take 3).foldl (process_link env run_id source.id) st
          { st with run_data := { st.run_data with sources_ok := st.run_data.sources_ok + 1 } }

/-- The terminal-status computation (`server.py` lines 623–628). -/
def final_status (rd : RunData) : String :=
  if rd.sources_failed == 0 then "success"
  else if rd.sources_ok > 0 then "partial_failure"
  else "failure"

/-- Function `send_brief_email` (`server.py` lines 408–433): an empty configured
recipient list short-circuits to `False` without calling the send capability;
otherwise exactly one send call is made and its success/failure is the
result (a raised send error is caught and yields `False`). -/
def send_brief_email (env : Env) (st : PipelineState) : Bool × PipelineState :=
  if env.recipients.isEmpty then
    (false, st)
  else
    (env.sendOk, { st with send_calls := st.send_calls + 1 })

/-- The initial `run_data` dictionary (`server.py` lines 447–456). -/
def run_data_init (n : Nat) : RunData :=
  { sources_total := n, sources_ok := 0, sources_failed := 0,
    items_total := 0, items_new := 0, items_updated := 0,
    items_unchanged := 0, events_created := 0 }

/-- The `runs` document as inserted by `trigger_run` (`server.py` lines
674–684): a fresh `Run()` with status `"running"` and zeroed counters. -/
def run_doc_init : RunRecord :=
  { status := "running", sources_total := 0, sources_ok := 0, sources_failed := 0,
    items_total := 0, items_new := 0, items_updated := 0, items_unchanged := 0,
    events_created := 0, emails_sent := 0 }

/-- The state at the start of `run_pipeline`: the pre-existing `items` store,
empty run-scoped collections, zeroed counters/clock, and the `runs` document
still in its `"running"` trigger state. -/
def pipeline_init (sources_count : Nat) (items0 : List Item) : PipelineState :=
  { items := items0, events := [], all_events := [], logs := [], briefs := [],
    run_data := run_data_init sources_count,
    clock := 0, fresh := 0, send_calls := 0, run_doc := run_doc_init }

/-- The source-processing phase of `run_pipeline` (`server.py` lines
442–620): the start log followed by the sequential per-source loop. -/
def pipeline_fold (env : Env) (run_id : String) (sources : List Source)
    (items0 : List Item) : PipelineState :=
  let st := pipeline_init sources.length items0
  let st := log_run st run_id "info" "Starting pipeline execution"
  sources.foldl (process_source env run_id) st

/-- Function `run_pipeline` (`server.py` lines 439–664): process every source in
order, compute the terminal status, gate the brief/dispatch step on
`all_events` being non-empty, overwrite the run document with the final
counters, status and `emails_sent`, and log completion. -/
def run_pipeline (env : Env) (run_id : String) (sources : List Source)
    (items0 : List Item) : PipelineState :=
  let st := pipeline_fold env run_id sources items0
  let status := final_status st.run_data
  let p :=
    if st.all_events.isEmpty then
      (0, st)
    else
      let brief : Brief := { id := st.fresh, run_id := run_id, events := st.all_events }
      let st := { st with briefs := st.briefs ++ [brief], fresh := st.fresh + 1 }
      let q := send_brief_email env st
      ((if q.1 then 1 else 0), q.2)
  let emails_sent := p.1
  let st := p.2
  let st := { st with run_doc := {
      status := status,
      sources_total := st.run_data.sources_total,
      sources_ok := st.run_data.sources_ok,
      sources_failed := st.run_data.sources_failed,
      items_total := st.run_data.items_total,
      items_new := st.run_data.items_new,
      items_updated := st.run_data.items_updated,
      items_unchanged := st.run_data.items_unchanged,
      events_created := st.run_data.events_created,
      emails_sent := emails_sent } }
  log_run st run_id "info" s!"Pipeline completed with status: {status}"

/-- The value `emails_sent` ends up with in the finalized run document, as a
function of the post-loop state and the email environment: `0` when no events
were collected, `0` when no recipients are configured or the send fails, `1`
on a successful send. -/
def emails_sent_calc (env : Env) (st : PipelineState) : Nat :=
  if st.all_events.isEmpty then 0
  else if env.recipients.isEmpty then 0
  else if env.sendOk then 1 else 0

/-- A concrete environment for witnesses and counterexamples: fetching
`https://ok.example/` yields a page with body `"BODY"`, no links; every other
URL raises; the classifier always answers `null`; one recipient is
configured and sends succeed.  The digest stand-in is the identity. -/
def env_w : Env where
  sha256hex := fun s => s
  fetch := fun u => if u == "https://ok.example/" then .page "BODY" "T" [] else .error
  classify := fun _ _ _ => .isNull
  recipients := ["ops@example.com"]
  sendOk := true

/-- A concrete source whose root fetch succeeds under `env_w`. -/
def src_ok : Source :=
  { id := "s1", name := "OK", url := "https://ok.example/", category := "news", active := true }

/-- A concrete source whose root fetch raises under `env_w`. -/
def src_bad : Source :=
  { id := "s2", name := "BAD", url := "https://bad.example/", category := "news", active := true }

/-- A pre-existing stored Item for `https://ok.example/` with id 7,
first-fetched time 5 and fingerprint `"OLD"` (which differs from the
fingerprint of the page `env_w` serves, so a run takes the UPDATED path). -/
def old_item : Item :=
  { id := 7, source_id := "s1", url := "https://ok.example/", title := "t0",
    content_text := "old", content_type := "html", content_hash := "OLD",
    fetched_at := 5, last_seen_at := 5 }

/-- Both outcomes of a fallible block carry the state as mutated up to the
point control left it: database writes performed before a raise are not
rolled back. -/
def outState (r : Except PipelineState PipelineState) : PipelineState :=
  match r with
  | .ok st => st
  | .error st => st

/-- Like `env_w`, but the classifier always returns a JSON-parseable dict
that does not match the Event schema, so `Event(**classification)` raises. -/
def env_bad : Env where
  sha256hex := fun s => s
  fetch := fun u => if u == "https://ok.example/" then .page "BODY" "T" [] else .error
  classify := fun _ _ _ => .ok .invalid
  recipients := ["ops@example.com"]
  sendOk := true

/-! ## Theorems -/

theorem detect_action_none (content_hash : String) :
    detect_action none content_hash = .NEW := rfl

theorem detect_action_some (ex : Item) (content_hash : String) :
    detect_action (some ex) content_hash =
      if ex.content_hash = content_hash then .UNCHANGED else .UPDATED := by
  unfold detect_action
  by_cases hc : ex.content_hash = content_hash <;> simp [hc]

theorem filter_link_eq_true_iff (url : String) :
    filter_link url = true ↔
      (BLOCKED_DOMAINS.any (fun d => strContains (str_lower url) d) = false ∧
       KEYWORDS.any (fun kw => strContains (str_lower url) kw) = true) := by
  unfold filter_link
  by_cases hb : BLOCKED_DOMAINS.any (fun d => strContains (str_lower url) d) = true <;>
    simp_all

theorem log_run_run_data (st : PipelineState) (rid lvl msg : String) :
    (log_run st rid lvl msg).run_data = st.run_data := rfl

theorem log_run_items (st : PipelineState) (rid lvl msg : String) :
    (log_run st rid lvl msg).items = st.items := rfl

theorem log_run_events (st : PipelineState) (rid lvl msg : String) :
    (log_run st rid lvl msg).events = st.events := rfl

theorem log_run_all_events (st : PipelineState) (rid lvl msg : String) :
    (log_run st rid lvl msg).all_events = st.all_events := rfl

theorem log_run_briefs (st : PipelineState) (rid lvl msg : String) :
    (log_run st rid lvl msg).briefs = st.briefs := rfl

theorem log_run_send_calls (st : PipelineState) (rid lvl msg : String) :
    (log_run st rid lvl msg).send_calls = st.send_calls := rfl

theorem log_run_run_doc (st : PipelineState) (rid lvl msg : String) :
    (log_run st rid lvl msg).run_doc = st.run_doc := rfl

theorem log_run_logs (st : PipelineState) (rid lvl msg : String) :
    (log_run st rid lvl msg).logs
      = st.logs ++ [{ run_id := rid, level := lvl, message := msg }] := rfl

theorem find?_updateItemByUrl (items : List Item) (url : String) (f : Item → Item)
    (ex : Item) (hfind : items.find? (fun it => it.url == url) = some ex)
    (hf : (f ex).url = url) :
    (updateItemByUrl items url f).find? (fun it => it.url == url) = some (f ex) := by
  induction items with
  | nil => simp at hfind
  | cons it rest ih =>
      by_cases hu : it.url = url
      · rw [List.find?_cons_of_pos _ (by simpa using hu)] at hfind
        injection hfind with h2
        subst h2
        unfold updateItemByUrl
        rw [if_pos (by simpa using hu)]
        exact List.find?_cons_of_pos _ (by simpa using hf)
      · rw [List.find?_cons_of_neg _ (by simpa using hu)] at hfind
        unfold updateItemByUrl
        rw [if_neg (by simpa using hu)]
        rw [List.find?_cons_of_neg _ (by simpa using hu)]
        exact ih hfind

theorem find?_append_of_none (p : Item → Bool) (items : List Item) (x : Item)
    (h : items.find? p = none) :
    (items ++ [x]).find? p = if p x then some x else none := by
  rw [List.find?_append, h]
  cases hx : p x <;> simp [List.find?, hx]

theorem persist_and_classify_error_classify (env : Env)
    (rid sid url md t ch : String) (b : Bool) (st st1 : PipelineState)
    (h : persist_and_classify env rid sid url md t ch b st = .error st1) :
    classify_content env md url t = some ParsedDict.invalid := by
  cases hcc : classify_content env md url t with
  | none => cases b <;> simp [persist_and_classify, hcc] at h
  | some d =>
      cases d with
      | valid c => cases b <;> simp [persist_and_classify, hcc] at h
      | invalid => rfl

theorem persist_and_classify_fields (env : Env)
    (rid sid url md t ch : String) (b : Bool) (st : PipelineState) :
    ((outState (persist_and_classify env rid sid url md t ch b st)).run_data.sources_total
        = st.run_data.sources_total) ∧
    ((outState (persist_and_classify env rid sid url md t ch b st)).run_data.sources_ok
        = st.run_data.sources_ok) ∧
    ((outState (persist_and_classify env rid sid url md t ch b st)).run_data.sources_failed
        = st.run_data.sources_failed) ∧
    ((outState (persist_and_classify env rid sid url md t ch b st)).run_data.items_total
        = st.run_data.items_total) ∧
    ((outState (persist_and_classify env rid sid url md t ch b st)).run_data.items_unchanged
        = st.run_data.items_unchanged) ∧
    ((outState (persist_and_classify env rid sid url md t ch b st)).run_data.items_new
        = st.run_data.items_new + if b then 1 else 0) ∧
    ((outState (persist_and_classify env rid sid url md t ch b st)).run_data.items_updated
        = st.run_data.items_updated + if b then 0 else 1) ∧
    ((outState (persist_and_classify env rid sid url md t ch b st)).briefs = st.briefs) ∧
    ((outState (persist_and_classify env rid sid url md t ch b st)).send_calls = st.send_calls) ∧
    ((outState (persist_and_classify env rid sid url md t ch b st)).run_doc = st.run_doc) ∧
    ((outState (persist_and_classify env rid sid url md t ch b st)).logs = st.logs) := by
  cases hcc : classify_content env md url t with
  | none => cases b <;> simp [persist_and_classify, outState, hcc]
  | some d => cases d <;> cases b <;> simp [persist_and_classify, outState, hcc]

theorem process_root_content_fields (env : Env) (rid sid url md t : String)
    (st : PipelineState) :
    ((outState (process_root_content env rid sid url md t st)).run_data.sources_total
        = st.run_data.sources_total) ∧
    ((outState (process_root_content env rid sid url md t st)).run_data.sources_ok
        = st.run_data.sources_ok) ∧
    ((outState (process_root_content env rid sid url md t st)).run_data.sources_failed
        = st.run_data.sources_failed) ∧
    (st.run_data.items_total
        ≤ (outState (process_root_content env rid sid url md t st)).run_data.items_total) ∧
    ((outState (process_root_content env rid sid url md t st)).run_data.items_total
        ≤ st.run_data.items_total + 1) ∧
    ((outState (process_root_content env rid sid url md t st)).run_data.items_new
        + (outState (process_root_content env rid sid url md t st)).run_data.items_updated
        + (outState (process_root_content env rid sid url md t st)).run_data.items_unchanged
        = st.run_data.items_new + st.run_data.items_updated
          + st.run_data.items_unchanged + 1) ∧
    ((outState (process_root_content env rid sid url md t st)).briefs = st.briefs) ∧
    ((outState (process_root_content env rid sid url md t st)).send_calls = st.send_calls) ∧
    ((outState (process_root_content env rid sid url md t st)).run_doc = st.run_doc) ∧
    ((outState (process_root_content env rid sid url md t st)).logs = st.logs) ∧
    (∀ x, process_root_content env rid sid url md t st = .ok x →
        x.run_data.items_total = st.run_data.items_total + 1) ∧
    (∀ x, process_root_content env rid sid url md t st = .error x →
        classify_content env md url t = some ParsedDict.invalid) := by
  unfold process_root_content
  cases hda : detect_action (st.items.find? (fun it => it.url == url))
      (compute_hash env.sha256hex md) <;> simp only [hda]
  case UNCHANGED =>
    refine ⟨?_, ?_, ?_, ?_, ?_, ?_, ?_, ?_, ?_, ?_, ?_, ?_⟩ <;>
      first
        | (simp [outState]; omega)
        | (simp [outState])
        | (intro x hx; injection hx with h2; subst h2; simp)
        | (intro x hx; exact Except.noConfusion hx)
  case NEW =>
    have pacf := persist_and_classify_fields env rid sid url md t
      (compute_hash env.sha256hex md) true st
    cases hpac : persist_and_classify env rid sid url md t
        (compute_hash env.sha256hex md) true st with
    | ok x =>
        rw [hpac] at pacf
        simp only [outState] at pacf
        obtain ⟨p1, p2, p3, p4, p5, p6, p7, p8, p9, p10, p11⟩ := pacf
        simp at p6 p7
        refine ⟨?_, ?_, ?_, ?_, ?_, ?_, ?_, ?_, ?_, ?_, ?_, ?_⟩ <;>
          simp only [hpac, outState] <;>
          first
            | omega
            | assumption
            | (intro y hy; injection hy with h2; subst h2; simp; omega)
            | (intro y hy; exact Except.noConfusion hy)
    | error x =>
        rw [hpac] at pacf
        simp only [outState] at pacf
        obtain ⟨p1, p2, p3, p4, p5, p6, p7, p8, p9, p10, p11⟩ := pacf
        have hcc := persist_and_classify_error_classify env rid sid url md t
          (compute_hash env.sha256hex md) true st x hpac
        simp at p6 p7
        refine ⟨?_, ?_, ?_, ?_, ?_, ?_, ?_, ?_, ?_, ?_, ?_, ?_⟩ <;>
          simp only [hpac, outState] <;>
          first
            | omega
            | assumption
            | (intro y hy; exact Except.noConfusion hy)
            | (intro y hy; exact hcc)
  case UPDATED =>
    have pacf := persist_and_classify_fields env rid sid url md t
      (compute_hash env.sha256hex md) false st
    cases hpac : persist_and_classify env rid sid url md t
        (compute_hash env.sha256hex md) false st with
    | ok x =>
        rw [hpac] at pacf
        simp only [outState] at pacf
        obtain ⟨p1, p2, p3, p4, p5, p6, p7, p8, p9, p10, p11⟩ := pacf
        simp at p6 p7
        refine ⟨?_, ?_, ?_, ?_, ?_, ?_, ?_, ?_, ?_, ?_, ?_, ?_⟩ <;>
          simp only [hpac, outState] <;>
          first
            | omega
            | assumption
            | (intro y hy; injection hy with h2; subst h2; simp; omega)
            | (intro y hy; exact Except.noConfusion hy)
    | error x =>
        rw [hpac] at pacf
        simp only [outState] at pacf
        obtain ⟨p1, p2, p3, p4, p5, p6, p7, p8, p9, p10, p11⟩ := pacf
        have hcc := persist_and_classify_error_classify env rid sid url md t
          (compute_hash env.sha256hex md) false st x hpac
        simp at p6 p7
        refine ⟨?_, ?_, ?_, ?_, ?_, ?_, ?_, ?_, ?_, ?_, ?_, ?_⟩ <;>
          simp only [hpac, outState] <;>
          first
            | omega
            | assumption
            | (intro y hy; exact Except.noConfusion hy)
            | (intro y hy; exact hcc)

theorem process_link_fields (env : Env) (rid sid : String) (st : PipelineState)
    (l : String) :
    ((process_link env rid sid st l).run_data.sources_total
        = st.run_data.sources_total) ∧
    ((process_link env rid sid st l).run_data.sources_ok
        = st.run_data.sources_ok) ∧
    ((process_link env rid sid st l).run_data.sources_failed
        = st.run_data.sources_failed) ∧
    ((process_link env rid sid st l).run_data.items_total
        + st.run_data.items_new + st.run_data.items_updated
        + st.run_data.items_unchanged
        ≤ st.run_data.items_total
          + (process_link env rid sid st l).run_data.items_new
          + (process_link env rid sid st l).run_data.items_updated
          + (process_link env rid sid st l).run_data.items_unchanged) ∧
    ((∀ c u t2, classify_content env c u t2 ≠ some ParsedDict.invalid) →
      (process_link env rid sid st l).run_data.items_total
        + st.run_data.items_new + st.run_data.items_updated
        + st.run_data.items_unchanged
        = st.run_data.items_total
          + (process_link env rid sid st l).run_data.items_new
          + (process_link env rid sid st l).run_data.items_updated
          + (process_link env rid sid st l).run_data.items_unchanged) ∧
    ((process_link env rid sid st l).briefs = st.briefs) ∧
    ((process_link env rid sid st l).send_calls = st.send_calls) ∧
    ((process_link env rid sid st l).run_doc = st.run_doc) := by
  unfold process_link
  cases hf : env.fetch l
  case error => simp [log_run]
  case empty => simp
  case page md t2 ls =>
    simp only []
    cases hda : detect_action (st.items.find? (fun it => it.url == l))
        (compute_hash env.sha256hex md) <;> simp only [hda]
    case UNCHANGED =>
      refine ⟨by simp, by simp, by simp, by omega, fun _ => by omega,
        by simp, by simp, by simp⟩
    case NEW =>
      have pacf := persist_and_classify_fields env rid sid l md t2
        (compute_hash env.sha256hex md) true st
      cases hpac : persist_and_classify env rid sid l md t2
          (compute_hash env.sha256hex md) true st with
      | ok x =>
          rw [hpac] at pacf
          simp only [outState] at pacf
          obtain ⟨p1, p2, p3, p4, p5, p6, p7, p8, p9, p10, p11⟩ := pacf
          simp at p6 p7
          refine ⟨?_, ?_, ?_, ?_, fun _ => ?_, ?_, ?_, ?_⟩ <;>
            simp only [hpac] <;>
            first
              | omega
              | assumption
      | error x =>
          rw [hpac] at pacf
          simp only [outState] at pacf
          obtain ⟨p1, p2, p3, p4, p5, p6, p7, p8, p9, p10, p11⟩ := pacf
          have hcc := persist_and_classify_error_classify env rid sid l md t2
            (compute_hash env.sha256hex md) true st x hpac
          simp at p6 p7
          refine ⟨?_, ?_, ?_, ?_, fun h => absurd hcc (h md l t2), ?_, ?_, ?_⟩ <;>
            simp only [hpac, log_run] <;>
            first
              | omega
              | assumption
    case UPDATED =>
      have pacf := persist_and_classify_fields env rid sid l md t2
        (compute_hash env.sha256hex md) false st
      cases hpac : persist_and_classify env rid sid l md t2
          (compute_hash env.sha256hex md) false st with
      | ok x =>
          rw [hpac] at pacf
          simp only [outState] at pacf
          obtain ⟨p1, p2, p3, p4, p5, p6, p7, p8, p9, p10, p11⟩ := pacf
          simp at p6 p7
          refine ⟨?_, ?_, ?_, ?_, fun _ => ?_, ?_, ?_, ?_⟩ <;>
            simp only [hpac] <;>
            first
              | omega
              | assumption
      | error x =>
          rw [hpac] at pacf
          simp only [outState] at pacf
          obtain ⟨p1, p2, p3, p4, p5, p6, p7, p8, p9, p10, p11⟩ := pacf
          have hcc := persist_and_classify_error_classify env rid sid l md t2
            (compute_hash env.sha256hex md) false st x hpac
          simp at p6 p7
          refine ⟨?_, ?_, ?_, ?_, fun h => absurd hcc (h md l t2), ?_, ?_, ?_⟩ <;>
            simp only [hpac, log_run] <;>
            first
              | omega
              | assumption

theorem foldl_process_link_fields (env : Env) (rid sid : String)
    (ls : List String) (st : PipelineState) :
    ((ls.foldl (process_link env rid sid) st).run_data.sources_total
        = st.run_data.sources_total) ∧
    ((ls.foldl (process_link env rid sid) st).run_data.sources_ok
        = st.run_data.sources_ok) ∧
    ((ls.foldl (process_link env rid sid) st).run_data.sources_failed
        = st.run_data.sources_failed) ∧
    ((ls.foldl (process_link env rid sid) st).run_data.items_total
        + st.run_data.items_new + st.run_data.items_updated
        + st.run_data.items_unchanged
        ≤ st.run_data.items_total
          + (ls.foldl (process_link env rid sid) st).run_data.items_new
          + (ls.foldl (process_link env rid sid) st).run_data.items_updated
          + (ls.foldl (process_link env rid sid) st).run_data.items_unchanged) ∧
    ((∀ c u t2, classify_content env c u t2 ≠ some ParsedDict.invalid) →
      (ls.foldl (process_link env rid sid) st).run_data.items_total
        + st.run_data.items_new + st.run_data.items_updated
        + st.run_data.items_unchanged
        = st.run_data.items_total
          + (ls.foldl (process_link env rid sid) st).run_data.items_new
          + (ls.foldl (process_link env rid sid) st).run_data.items_updated
          + (ls.foldl (process_link env rid sid) st).run_data.items_unchanged) ∧
    ((ls.foldl (process_link env rid sid) st).briefs = st.briefs) ∧
    ((ls.foldl (process_link env rid sid) st).send_calls = st.send_calls) ∧
    ((ls.foldl (process_link env rid sid) st).run_doc = st.run_doc) := by
  induction ls generalizing st with
  | nil => simp
  | cons l rest ih =>
      obtain ⟨h1, h2, h3, h4, h5, h6, h7, h8⟩ := process_link_fields env rid sid st l
      obtain ⟨g1, g2, g3, g4, g5, g6, g7, g8⟩ := ih (process_link env rid sid st l)
      refine ⟨?_, ?_, ?_, ?_, ?_, ?_, ?_, ?_⟩ <;> simp only [List.foldl_cons] <;>
        first
          | omega
          | (intro henv; have e1 := h5 henv; have e2 := g5 henv; omega)
          | (rw [g6, h6])
          | (rw [g7, h7])
          | (rw [g8, h8])

theorem process_source_fields (env : Env) (rid : String) (st : PipelineState)
    (src : Source) :
    ((process_source env rid st src).run_data.sources_total
        = st.run_data.sources_total) ∧
    ((process_source env rid st src).run_data.sources_ok
        + (process_source env rid st src).run_data.sources_failed
        = st.run_data.sources_ok + st.run_data.sources_failed + 1) ∧
    (st.run_data.sources_failed ≤ (process_source env rid st src).run_data.sources_failed) ∧
    ((process_source env rid st src).run_data.items_total
        + st.run_data.items_new + st.run_data.items_updated
        + st.run_data.items_unchanged
        ≤ st.run_data.items_total
          + (process_source env rid st src).run_data.items_new
          + (process_source env rid st src).run_data.items_updated
          + (process_source env rid st src).run_data.items_unchanged) ∧
    ((∀ c u t2, classify_content env c u t2 ≠ some ParsedDict.invalid) →
      (process_source env rid st src).run_data.items_total
        + st.run_data.items_new + st.run_data.items_updated
        + st.run_data.items_unchanged
        = st.run_data.items_total
          + (process_source env rid st src).run_data.items_new
          + (process_source env rid st src).run_data.items_updated
          + (process_source env rid st src).run_data.items_unchanged) ∧
    ((process_source env rid st src).briefs = st.briefs) ∧
    ((process_source env rid st src).send_calls = st.send_calls) ∧
    ((process_source env rid st src).run_doc = st.run_doc) := by
  cases hf : env.fetch src.url
  case error =>
    refine ⟨?_, ?_, ?_, ?_, fun _ => ?_, ?_, ?_, ?_⟩ <;>
      simp [process_source, log_run, hf] <;> omega
  case empty =>
    refine ⟨?_, ?_, ?_, ?_, fun _ => ?_, ?_, ?_, ?_⟩ <;>
      simp [process_source, log_run, hf] <;> omega
  case page md t ls =>
    simp only [process_source, hf]
    have prcf := process_root_content_fields env rid src.id src.url md t
      (log_run (log_run st rid "info" s!"Processing source: {src.name}")
        rid "info" s!"Found {(select_links ls).length} relevant links from {src.name}")
    cases hout : process_root_content env rid src.id src.url md t
        (log_run (log_run st rid "info" s!"Processing source: {src.name}")
          rid "info" s!"Found {(select_links ls).length} relevant links from {src.name}") with
    | ok st1 =>
        rw [hout] at prcf
        simp only [outState] at prcf
        obtain ⟨h1, h2, h3, h4, h5, h6, h7, h8, h9, h10, h11, h12⟩ := prcf
        have htot := h11 st1 rfl
        obtain ⟨g1, g2, g3, g4, g5, g6, g7, g8⟩ :=
          foldl_process_link_fields env rid src.id ((select_links ls).take 3) st1
        rw [log_run_run_data, log_run_run_data] at h1 h2 h3 h6 htot
        rw [log_run_briefs, log_run_briefs] at h7
        rw [log_run_send_calls, log_run_send_calls] at h8
        rw [log_run_run_doc, log_run_run_doc] at h9
        simp only [hout]
        refine ⟨by omega, by omega, by omega, by omega, ?_, ?_, ?_, ?_⟩
        · intro henv
          have e2 := g5 henv
          omega
        · rw [g6, h7]
        · rw [g7, h8]
        · rw [g8, h9]
    | error st1 =>
        rw [hout] at prcf
        simp only [outState] at prcf
        obtain ⟨h1, h2, h3, h4, h5, h6, h7, h8, h9, h10, h11, h12⟩ := prcf
        have hinv := h12 st1 rfl
        rw [log_run_run_data, log_run_run_data] at h1 h2 h3 h4 h5 h6
        rw [log_run_briefs, log_run_briefs] at h7
        rw [log_run_send_calls, log_run_send_calls] at h8
        rw [log_run_run_doc, log_run_run_doc] at h9
        simp only [hout, log_run_run_data, log_run_briefs, log_run_send_calls,
          log_run_run_doc]
        refine ⟨by omega, by omega, by omega, by omega,
          fun henv => absurd hinv (henv md src.url t), by simp [h7], by simp [h8],
          by simp [h9]⟩

theorem foldl_process_source_fields (env : Env) (rid : String)
    (srcs : List Source) (st : PipelineState) :
    ((srcs.foldl (process_source env rid) st).run_data.sources_total
        = st.run_data.sources_total) ∧
    ((srcs.foldl (process_source env rid) st).run_data.sources_ok
        + (srcs.foldl (process_source env rid) st).run_data.sources_failed
        = st.run_data.sources_ok + st.run_data.sources_failed + srcs.length) ∧
    (st.run_data.sources_failed
        ≤ (srcs.foldl (process_source env rid) st).run_data.sources_failed) ∧
    ((srcs.foldl (process_source env rid) st).run_data.items_total
        + st.run_data.items_new + st.run_data.items_updated
        + st.run_data.items_unchanged
        ≤ st.run_data.items_total
          + (srcs.foldl (process_source env rid) st).run_data.items_new
          + (srcs.foldl (process_source env rid) st).run_data.items_updated
          + (srcs.foldl (process_source env rid) st).run_data.items_unchanged) ∧
    ((∀ c u t2, classify_content env c u t2 ≠ some ParsedDict.invalid) →
      (srcs.foldl (process_source env rid) st).run_data.items_total
        + st.run_data.items_new + st.run_data.items_updated
        + st.run_data.items_unchanged
        = st.run_data.items_total
          + (srcs.foldl (process_source env rid) st).run_data.items_new
          + (srcs.foldl (process_source env rid) st).run_data.items_updated
          + (srcs.foldl (process_source env rid) st).run_data.items_unchanged) ∧
    ((srcs.foldl (process_source env rid) st).briefs = st.briefs) ∧
    ((srcs.foldl (process_source env rid) st).send_calls = st.send_calls) ∧
    ((srcs.foldl (process_source env rid) st).run_doc = st.run_doc) := by
  induction srcs generalizing st with
  | nil => simp
  | cons src rest ih =>
      obtain ⟨h1, h2, h3, h4, h5, h6, h7, h8⟩ := process_source_fields env rid st src
      obtain ⟨g1, g2, g3, g4, g5, g6, g7, g8⟩ := ih (process_source env rid st src)
      refine ⟨?_, ?_, ?_, ?_, ?_, ?_, ?_, ?_⟩ <;>
        simp only [List.foldl_cons, List.length_cons] <;>
        first
          | omega
          | (intro henv; have e1 := h5 henv; have e2 := g5 henv; omega)
          | (rw [g6, h6])
          | (rw [g7, h7])
          | (rw [g8, h8])

theorem pipeline_fold_fields (env : Env) (rid : String) (sources : List Source)
    (items0 : List Item) :
    ((pipeline_fold env rid sources items0).run_data.sources_total = sources.length) ∧
    ((pipeline_fold env rid sources items0).run_data.sources_ok
        + (pipeline_fold env rid sources items0).run_data.sources_failed
        = sources.length) ∧
    ((pipeline_fold env rid sources items0).run_data.items_total
        ≤ (pipeline_fold env rid sources items0).run_data.items_new
          + (pipeline_fold env rid sources items0).run_data.items_updated
          + (pipeline_fold env rid sources items0).run_data.items_unchanged) ∧
    ((∀ c u t2, classify_content env c u t2 ≠ some ParsedDict.invalid) →
      (pipeline_fold env rid sources items0).run_data.items_total
        = (pipeline_fold env rid sources items0).run_data.items_new
          + (pipeline_fold env rid sources items0).run_data.items_updated
          + (pipeline_fold env rid sources items0).run_data.items_unchanged) ∧
    ((pipeline_fold env rid sources items0).briefs = []) ∧
    ((pipeline_fold env rid sources items0).send_calls = 0) ∧
    ((pipeline_fold env rid sources items0).run_doc = run_doc_init) := by
  obtain ⟨h1, h2, h3, h4, h5, h6, h7, h8⟩ :=
    foldl_process_source_fields env rid sources
      (log_run (pipeline_init sources.length items0) rid "info"
        "Starting pipeline execution")
  simp only [pipeline_fold]
  simp only [log_run, pipeline_init, run_data_init] at h1 h2 h3 h4 h5 h6 h7 h8 ⊢
  refine ⟨by omega, by omega, by omega, ?_, h6, h7, h8⟩
  intro henv
  have e1 := h5 henv
  omega

theorem run_pipeline_run_doc (env : Env) (rid : String) (sources : List Source)
    (items0 : List Item) :
    (run_pipeline env rid sources items0).run_doc =
      { status := final_status (pipeline_fold env rid sources items0).run_data,
        sources_total := (pipeline_fold env rid sources items0).run_data.sources_total,
        sources_ok := (pipeline_fold env rid sources items0).run_data.sources_ok,
        sources_failed := (pipeline_fold env rid sources items0).run_data.sources_failed,
        items_total := (pipeline_fold env rid sources items0).run_data.items_total,
        items_new := (pipeline_fold env rid sources items0).run_data.items_new,
        items_updated := (pipeline_fold env rid sources items0).run_data.items_updated,
        items_unchanged := (pipeline_fold env rid sources items0).run_data.items_unchanged,
        events_created := (pipeline_fold env rid sources items0).run_data.events_created,
        emails_sent := emails_sent_calc env (pipeline_fold env rid sources items0) } := by
  by_cases h1 : (pipeline_fold env rid sources items0).all_events.isEmpty <;>
    by_cases h2 : env.recipients.isEmpty <;>
      simp [run_pipeline, log_run, send_brief_email, emails_sent_calc, h1, h2]

theorem run_pipeline_all_events (env : Env) (rid : String) (sources : List Source)
    (items0 : List Item) :
    (run_pipeline env rid sources items0).all_events
      = (pipeline_fold env rid sources items0).all_events := by
  by_cases h1 : (pipeline_fold env rid sources items0).all_events.isEmpty <;>
    by_cases h2 : env.recipients.isEmpty <;>
      simp [run_pipeline, log_run, send_brief_email, h1, h2]

theorem run_pipeline_no_events (env : Env) (rid : String) (sources : List Source)
    (items0 : List Item)
    (h : (pipeline_fold env rid sources items0).all_events = []) :
    (run_pipeline env rid sources items0).briefs
        = (pipeline_fold env rid sources items0).briefs ∧
    (run_pipeline env rid sources items0).send_calls
        = (pipeline_fold env rid sources items0).send_calls := by
  have h1 : (pipeline_fold env rid sources items0).all_events.isEmpty := by
    simp [h]
  constructor <;> simp [run_pipeline, log_run, h1]

theorem persist_and_classify_of_none (env : Env) (rid sid url md t ch : String)
    (b : Bool) (st : PipelineState)
    (hcls : classify_content env md url t = none) :
    persist_and_classify env rid sid url md t ch b st =
      .ok (if b then
        { st with fresh := st.fresh + 1, clock := st.clock + 1,
                  items := st.items ++ [fresh_item sid url md t ch st],
                  run_data := { st.run_data with
                    items_new := st.run_data.items_new + 1 } }
      else
        { st with fresh := st.fresh + 1, clock := st.clock + 1,
                  items := updateItemByUrl st.items url
                    (fun _ => fresh_item sid url md t ch st),
                  run_data := { st.run_data with
                    items_updated := st.run_data.items_updated + 1 } }) := by
  cases b <;> simp [persist_and_classify, hcls]

theorem persist_and_classify_of_invalid (env : Env) (rid sid url md t ch : String)
    (b : Bool) (st : PipelineState)
    (hcls : classify_content env md url t = some ParsedDict.invalid) :
    persist_and_classify env rid sid url md t ch b st =
      .error (if b then
        { st with fresh := st.fresh + 1, clock := st.clock + 1,
                  items := st.items ++ [fresh_item sid url md t ch st],
                  run_data := { st.run_data with
                    items_new := st.run_data.items_new + 1 } }
      else
        { st with fresh := st.fresh + 1, clock := st.clock + 1,
                  items := updateItemByUrl st.items url
                    (fun _ => fresh_item sid url md t ch st),
                  run_data := { st.run_data with
                    items_updated := st.run_data.items_updated + 1 } }) := by
  cases b <;> simp [persist_and_classify, hcls]

theorem persist_and_classify_items (env : Env) (rid sid url md t ch : String)
    (b : Bool) (st : PipelineState) :
    (outState (persist_and_classify env rid sid url md t ch b st)).items =
      if b then st.items ++ [fresh_item sid url md t ch st]
      else updateItemByUrl st.items url (fun _ => fresh_item sid url md t ch st) := by
  cases hcc : classify_content env md url t with
  | none => cases b <;> simp [persist_and_classify, outState, hcc]
  | some d => cases d <;> cases b <;> simp [persist_and_classify, outState, hcc]

theorem process_root_content_error_of_invalid (env : Env) (rid sid url md t : String)
    (st : PipelineState)
    (hact : detect_action (st.items.find? (fun it => it.url == url))
        (compute_hash env.sha256hex md) ≠ .UNCHANGED)
    (hinv : classify_content env md url t = some ParsedDict.invalid) :
    ∃ x, process_root_content env rid sid url md t st = .error x := by
  cases hda : detect_action (st.items.find? (fun it => it.url == url))
      (compute_hash env.sha256hex md)
  case UNCHANGED => exact absurd hda hact
  case NEW =>
      have hres := persist_and_classify_of_invalid env rid sid url md t
        (compute_hash env.sha256hex md) true st hinv
      exact ⟨_, by unfold process_root_content; simp only [hda, hres]; rfl⟩
  case UPDATED =>
      have hres := persist_and_classify_of_invalid env rid sid url md t
        (compute_hash env.sha256hex md) false st hinv
      exact ⟨_, by unfold process_root_content; simp only [hda, hres]; rfl⟩

theorem detect_action_eq_new_iff (existing : Option Item) (ch : String) :
    detect_action existing ch = .NEW ↔ existing = none := by
  cases existing with
  | none => simp [detect_action_none]
  | some ex =>
      rw [detect_action_some]
      by_cases hc : ex.content_hash = ch <;> simp [hc]

/-- C3: the change-detection fingerprint is a deterministic function of the
bounded 12,000-character prefix of the content text — any two texts whose
first 12,000 characters agree get the same `compute_hash` value, for any
(deterministic) digest function standing in for SHA-256. -/
theorem compute_hash_of_bounded_head_eq (sha256hex : String → String)
    (a b : String) (h : a.take 12000 = b.take 12000) :
    compute_hash sha256hex a = compute_hash sha256hex b := by
  unfold compute_hash
  rw [h]

/-- Witness for C3 at a concrete input text. -/
theorem compute_hash_of_bounded_head_eq_witness :
    ("press release" : String).take 12000 = ("press release" : String).take 12000 ∧
    compute_hash (fun s => s) "press release" = compute_hash (fun s => s) "press release" :=
  ⟨rfl, compute_hash_of_bounded_head_eq (fun s => s) "press release" "press release" rfl⟩

/-- C5: with the store lookup being `db.items.find_one({"url": url})`, the
change-detection decision is NEW exactly when no Item with that URL exists in
the store, UPDATED exactly when the looked-up Item's stored fingerprint
differs from the newly computed one, and UNCHANGED exactly when the looked-up
Item carries the same fingerprint. -/
theorem detect_action_spec (items : List Item) (url content_hash : String) :
    (detect_action (items.find? (fun it => it.url == url)) content_hash = .NEW ↔
       ∀ it ∈ items, it.url ≠ url) ∧
    (detect_action (items.find? (fun it => it.url == url)) content_hash = .UPDATED ↔
       ∃ ex, items.find? (fun it => it.url == url) = some ex ∧
         ex.content_hash ≠ content_hash) ∧
    (detect_action (items.find? (fun it => it.url == url)) content_hash = .UNCHANGED ↔
       ∃ ex, items.find? (fun it => it.url == url) = some ex ∧
         ex.content_hash = content_hash) := by
  cases hf : items.find? (fun it => it.url == url) with
  | none =>
      have hnone : ∀ it ∈ items, it.url ≠ url := by
        intro it hit
        have h := List.find?_eq_none.mp hf it hit
        simpa using h
      refine ⟨⟨fun _ it hit => hnone it hit, fun _ => rfl⟩, ?_, ?_⟩
      · exact ⟨fun h => by simp [detect_action] at h, fun ⟨_, hex2, _⟩ => by cases hex2⟩
      · exact ⟨fun h => by simp [detect_action] at h, fun ⟨_, hex2, _⟩ => by cases hex2⟩
  | some ex =>
      rw [detect_action_some]
      have hmem := List.mem_of_find?_eq_some hf
      have hurl : ex.url = url := by simpa using List.find?_some hf
      by_cases hc : ex.content_hash = content_hash
      · rw [if_pos hc]
        refine ⟨⟨fun h => absurd h (by decide), fun hall => absurd hurl (hall ex hmem)⟩, ?_, ?_⟩
        · refine ⟨fun h => absurd h (by decide), ?_⟩
          rintro ⟨ex2, hex2, hne⟩
          injection hex2 with h2
          subst h2
          exact absurd hc hne
        · exact ⟨fun _ => ⟨ex, rfl, hc⟩, fun _ => rfl⟩
      · rw [if_neg hc]
        refine ⟨⟨fun h => absurd h (by decide), fun hall => absurd hurl (hall ex hmem)⟩, ?_, ?_⟩
        · exact ⟨fun _ => ⟨ex, rfl, hc⟩, fun _ => rfl⟩
        · refine ⟨fun h => absurd h (by decide), ?_⟩
          rintro ⟨ex2, hex2, hce⟩
          injection hex2 with h2
          subst h2
          exact absurd hce hc

/-- C4: the Link Selector returns the filter-passing links in their original
relative order truncated to the first 8: it is a sublist of the input of
length at most 8, equal to the full passing list whenever that list is within
the cap, and every returned URL passes the filter — in particular it contains
no blocked domain as a substring of its lowered text (so never a URL whose
host is in the block list) and contains at least one keyword. -/
theorem select_links_spec (links : List String) :
    select_links links = (links.filter filter_link).take 8 ∧
    (select_links links).length ≤ 8 ∧
    (select_links links).Sublist links ∧
    ((links.filter filter_link).length ≤ 8 →
      select_links links = links.filter filter_link) ∧
    (∀ url ∈ select_links links, filter_link url = true) ∧
    (∀ url ∈ select_links links, ∀ d ∈ BLOCKED_DOMAINS,
      strContains (str_lower url) d = false) ∧
    (∀ url ∈ select_links links, ∃ kw ∈ KEYWORDS,
      strContains (str_lower url) kw = true) := by
  have hpass : ∀ url ∈ select_links links, filter_link url = true := by
    intro url hu
    have : url ∈ links.filter filter_link := List.mem_of_mem_take hu
    exact (List.mem_filter.mp this).2
  refine ⟨rfl, ?_, ?_, ?_, hpass, ?_, ?_⟩
  · simp only [select_links, List.length_take]
    exact min_le_left _ _
  · exact (List.take_sublist _ _).trans (List.filter_sublist _)
  · intro hlen
    exact List.take_of_length_le hlen
  · intro url hu d hd
    have h := (filter_link_eq_true_iff url).mp (hpass url hu)
    have := List.any_eq_false.mp h.1
    simpa using this d hd
  · intro url hu
    have h := (filter_link_eq_true_iff url).mp (hpass url hu)
    simpa using List.any_eq_true.mp h.2

theorem process_source_fail_fields (env : Env) (rid : String) (st : PipelineState)
    (s : Source)
    (hfail : env.fetch s.url = .error ∨ env.fetch s.url = .empty) :
    ((process_source env rid st s).run_data.sources_failed
        = st.run_data.sources_failed + 1) ∧
    ((process_source env rid st s).logs = st.logs ++
        [{ run_id := rid, level := "info", message := s!"Processing source: {s.name}" },
         { run_id := rid, level := "error", message := s!"Failed to process source: {s.name}" }]) ∧
    ((process_source env rid st s).items = st.items) ∧
    ((process_source env rid st s).events = st.events) ∧
    ((process_source env rid st s).all_events = st.all_events) ∧
    ((process_source env rid st s).run_data.sources_ok = st.run_data.sources_ok) := by
  rcases hfail with h | h <;> simp [process_source, log_run, h]

theorem process_source_sources_of_page (env : Env) (rid : String) (st : PipelineState)
    (src : Source) (md t : String) (ls : List String)
    (hfetch : env.fetch src.url = .page md t ls)
    (hnoinv : classify_content env md src.url t ≠ some ParsedDict.invalid) :
    (process_source env rid st src).run_data.sources_ok
        = st.run_data.sources_ok + 1 ∧
    (process_source env rid st src).run_data.sources_failed
        = st.run_data.sources_failed := by
  simp only [process_source, hfetch]
  have prcf := process_root_content_fields env rid src.id src.url md t
    (log_run (log_run st rid "info" s!"Processing source: {src.name}")
      rid "info" s!"Found {(select_links ls).length} relevant links from {src.name}")
  cases hout : process_root_content env rid src.id src.url md t
      (log_run (log_run st rid "info" s!"Processing source: {src.name}")
        rid "info" s!"Found {(select_links ls).length} relevant links from {src.name}") with
  | ok st1 =>
      rw [hout] at prcf
      simp only [outState] at prcf
      obtain ⟨h1, h2, h3, h4, h5, h6, h7, h8, h9, h10, h11, h12⟩ := prcf
      obtain ⟨g1, g2, g3, g4, g5, g6, g7, g8⟩ :=
        foldl_process_link_fields env rid src.id ((select_links ls).take 3) st1
      rw [log_run_run_data, log_run_run_data] at h2 h3
      simp only [hout]
      exact ⟨by omega, by omega⟩
  | error st1 =>
      rw [hout] at prcf
      simp only [outState] at prcf
      obtain ⟨h1, h2, h3, h4, h5, h6, h7, h8, h9, h10, h11, h12⟩ := prcf
      exact absurd (h12 st1 rfl) hnoinv

theorem process_source_sources_of_invalid (env : Env) (rid : String)
    (st : PipelineState) (src : Source) (md t : String) (ls : List String)
    (hfetch : env.fetch src.url = .page md t ls)
    (hinv : classify_content env md src.url t = some ParsedDict.invalid)
    (hact : detect_action (st.items.find? (fun it => it.url == src.url))
        (compute_hash env.sha256hex md) ≠ .UNCHANGED) :
    (process_source env rid st src).run_data.sources_failed
        = st.run_data.sources_failed + 1 ∧
    (process_source env rid st src).run_data.sources_ok
        = st.run_data.sources_ok := by
  simp only [process_source, hfetch]
  have hact2 : detect_action
      ((log_run (log_run st rid "info" s!"Processing source: {src.name}")
        rid "info"
        s!"Found {(select_links ls).length} relevant links from {src.name}").items.find?
          (fun it => it.url == src.url))
      (compute_hash env.sha256hex md) ≠ .UNCHANGED := by
    simp only [log_run_items]
    exact hact
  obtain ⟨st1, hout⟩ := process_root_content_error_of_invalid env rid src.id src.url md t
    (log_run (log_run st rid "info" s!"Processing source: {src.name}")
      rid "info" s!"Found {(select_links ls).length} relevant links from {src.name}")
    hact2 hinv
  have prcf := process_root_content_fields env rid src.id src.url md t
    (log_run (log_run st rid "info" s!"Processing source: {src.name}")
      rid "info" s!"Found {(select_links ls).length} relevant links from {src.name}")
  rw [hout] at prcf
  simp only [outState] at prcf
  obtain ⟨h1, h2, h3, h4, h5, h6, h7, h8, h9, h10, h11, h12⟩ := prcf
  rw [log_run_run_data, log_run_run_data] at h2 h3
  simp only [hout, log_run_run_data]
  exact ⟨by omega, by omega⟩

theorem foldl_failed_pos_of_mem (env : Env) (rid : String) (s : Source)
    (hfail : env.fetch s.url = .error ∨ env.fetch s.url = .empty)
    (srcs : List Source) (st : PipelineState) :
    s ∈ srcs → 0 < (srcs.foldl (process_source env rid) st).run_data.sources_failed := by
  induction srcs generalizing st with
  | nil => intro h; cases h
  | cons a rest ih =>
      intro hmem
      rcases List.mem_cons.mp hmem with heq | hmem2
      · subst heq
        have h1 := (process_source_fail_fields env rid st s hfail).1
        have h2 := (foldl_process_source_fields env rid rest
          (process_source env rid st s)).2.2.1
        simp only [List.foldl_cons]
        omega
      · simp only [List.foldl_cons]
        exact ih _ hmem2

/-- Counterexample for C10: under an environment whose classifier always
returns a JSON-parseable dict that does not match the Event schema,
`Event(**classification)` raises after `items_new += 1` but before
`items_total += 1`, so the finalized run record of a one-source run has
`items_new = 1` yet `items_total = 0`: the claimed bucket identity
`items_total = items_new + items_updated + items_unchanged` fails. -/
theorem counters_skew_counterexample :
    (run_pipeline env_bad "rc10" [src_ok] []).run_doc.items_new = 1 ∧
    (run_pipeline env_bad "rc10" [src_ok] []).run_doc.items_total = 0 ∧
    ¬((run_pipeline env_bad "rc10" [src_ok] []).run_doc.items_total
        = (run_pipeline env_bad "rc10" [src_ok] []).run_doc.items_new
          + (run_pipeline env_bad "rc10" [src_ok] []).run_doc.items_updated
          + (run_pipeline env_bad "rc10" [src_ok] []).run_doc.items_unchanged) := by
  refine ⟨by decide, by decide, by decide⟩

/-- C10 (amended): in the finalized run record of any run (persistence
writes are modelled as always succeeding), every source is counted in
exactly one of ok/failed (`sources_total = sources_ok + sources_failed`),
and `items_total ≤ items_new + items_updated + items_unchanged`, with
equality whenever no classifier response is a JSON-parseable dict that
fails Event-schema validation; a schema-invalid dict raises between the
bucket bump and the `items_total` bump, leaving `items_total` strictly
below the bucket sum. -/
theorem run_counters_consistent (env : Env) (rid : String) (sources : List Source)
    (items0 : List Item) :
    ((run_pipeline env rid sources items0).run_doc.sources_total
        = (run_pipeline env rid sources items0).run_doc.sources_ok
          + (run_pipeline env rid sources items0).run_doc.sources_failed) ∧
    ((run_pipeline env rid sources items0).run_doc.items_total
        ≤ (run_pipeline env rid sources items0).run_doc.items_new
          + (run_pipeline env rid sources items0).run_doc.items_updated
          + (run_pipeline env rid sources items0).run_doc.items_unchanged) ∧
    ((∀ c u t2, classify_content env c u t2 ≠ some ParsedDict.invalid) →
      (run_pipeline env rid sources items0).run_doc.items_total
        = (run_pipeline env rid sources items0).run_doc.items_new
          + (run_pipeline env rid sources items0).run_doc.items_updated
          + (run_pipeline env rid sources items0).run_doc.items_unchanged) := by
  obtain ⟨f1, f2, f3, f4, f5, f6, f7⟩ := pipeline_fold_fields env rid sources items0
  rw [run_pipeline_run_doc]
  refine ⟨by simp; omega, by simpa using f3, ?_⟩
  intro henv
  simpa using f4 henv

/-- C1: for a run that processed at least one source, the terminal status is
`success` when no source failed, `partial_failure` when some source failed
and some source succeeded, and `failure` when no source succeeded. -/
theorem run_status_cases (env : Env) (rid : String) (sources : List Source)
    (items0 : List Item) (hne : sources ≠ []) :
    ((run_pipeline env rid sources items0).run_doc.sources_failed = 0 →
        (run_pipeline env rid sources items0).run_doc.status = "success") ∧
    (0 < (run_pipeline env rid sources items0).run_doc.sources_failed →
        0 < (run_pipeline env rid sources items0).run_doc.sources_ok →
        (run_pipeline env rid sources items0).run_doc.status = "partial_failure") ∧
    ((run_pipeline env rid sources items0).run_doc.sources_ok = 0 →
        (run_pipeline env rid sources items0).run_doc.status = "failure") := by
  obtain ⟨f1, f2, f3, f4, f5, f6, f7⟩ := pipeline_fold_fields env rid sources items0
  have hlen : 0 < sources.length := List.length_pos.mpr hne
  rw [run_pipeline_run_doc]
  simp only [final_status]
  refine ⟨?_, ?_, ?_⟩
  · intro h0
    simp [h0]
  · intro hfail hok
    have h1 : ((pipeline_fold env rid sources items0).run_data.sources_failed == 0) = false := by
      simp
      omega
    simp [h1, hok]
  · intro hok
    have hfail : 0 < (pipeline_fold env rid sources items0).run_data.sources_failed := by
      omega
    have h1 : ((pipeline_fold env rid sources items0).run_data.sources_failed == 0) = false := by
      simp
      omega
    simp [h1, hok]

/-- Witness for C1: a concrete two-source run in which one source succeeds
and one fails ends in `partial_failure` and satisfies all three clauses of
the status rule. -/
theorem run_status_cases_witness :
    ([src_ok, src_bad] : List Source) ≠ [] ∧
    (((run_pipeline env_w "r1" [src_ok, src_bad] []).run_doc.sources_failed = 0 →
        (run_pipeline env_w "r1" [src_ok, src_bad] []).run_doc.status = "success") ∧
    (0 < (run_pipeline env_w "r1" [src_ok, src_bad] []).run_doc.sources_failed →
        0 < (run_pipeline env_w "r1" [src_ok, src_bad] []).run_doc.sources_ok →
        (run_pipeline env_w "r1" [src_ok, src_bad] []).run_doc.status = "partial_failure") ∧
    ((run_pipeline env_w "r1" [src_ok, src_bad] []).run_doc.sources_ok = 0 →
        (run_pipeline env_w "r1" [src_ok, src_bad] []).run_doc.status = "failure")) :=
  ⟨by decide, run_status_cases env_w "r1" [src_ok, src_bad] [] (by decide)⟩

/-- Counterexample for C2: a run over an empty active-source list has
`sources_failed == 0`, which the code checks first, so it terminates with
status `"success"`, not `FAILURE` as the claim states. -/
theorem empty_run_status_counterexample :
    (run_pipeline env_w "r2" [] []).run_doc.status = "success" ∧
    (run_pipeline env_w "r2" [] []).run_doc.status ≠ "failure" := by
  exact ⟨by decide, by decide⟩

/-- C2 (amended): for every run whose active-source list is empty
(`sources_total == 0`, hence `sources_ok == 0` and `sources_failed == 0`),
the terminal status is SUCCESS, because the zero-failure check is evaluated
first. -/
theorem empty_run_status (env : Env) (rid : String) (items0 : List Item) :
    (run_pipeline env rid [] items0).run_doc.status = "success" := by
  obtain ⟨f1, f2, f3, f4, f5, f6, f7⟩ := pipeline_fold_fields env rid [] items0
  have h0 : (pipeline_fold env rid [] items0).run_data.sources_failed = 0 := by
    simp at f2
    omega
  rw [run_pipeline_run_doc]
  simp [final_status, h0]

/-- C8: for every run whose collected event list is empty, no Brief record
is persisted, the send capability is never invoked, and the finalized run
record has `emails_sent == 0`. -/
theorem empty_events_no_dispatch (env : Env) (rid : String) (sources : List Source)
    (items0 : List Item)
    (h : (run_pipeline env rid sources items0).all_events = []) :
    (run_pipeline env rid sources items0).briefs = [] ∧
    (run_pipeline env rid sources items0).send_calls = 0 ∧
    (run_pipeline env rid sources items0).run_doc.emails_sent = 0 := by
  have hfold : (pipeline_fold env rid sources items0).all_events = [] := by
    rw [← run_pipeline_all_events]
    exact h
  obtain ⟨hb, hs⟩ := run_pipeline_no_events env rid sources items0 hfold
  obtain ⟨f1, f2, f3, f4, f5, f6, f7⟩ := pipeline_fold_fields env rid sources items0
  refine ⟨?_, ?_, ?_⟩
  · rw [hb, f5]
  · rw [hs, f6]
  · rw [run_pipeline_run_doc]
    simp [emails_sent_calc, hfold]

/-- Witness for C8: a concrete run whose classifier answers `null`
throughout collects no events, persists no brief, never calls send, and
finalizes with `emails_sent = 0`. -/
theorem empty_events_no_dispatch_witness :
    (run_pipeline env_w "r8" [src_ok] []).all_events = [] ∧
    ((run_pipeline env_w "r8" [src_ok] []).briefs = [] ∧
     (run_pipeline env_w "r8" [src_ok] []).send_calls = 0 ∧
     (run_pipeline env_w "r8" [src_ok] []).run_doc.emails_sent = 0) :=
  ⟨by decide, empty_events_no_dispatch env_w "r8" [src_ok] [] (by decide)⟩

/-- C6: a failing (raising or empty) root fetch for a source is caught: an
error-level log entry is appended for the run, `sources_failed` is
incremented by exactly one, and nothing else of that step is touched (no
item, no event, `sources_ok` unchanged) — and at run level a run containing
such a source still reaches a terminal status (never stays `running`),
records the failure, and ends in `partial_failure` whenever at least one
other source succeeded. -/
theorem source_failure_isolation (env : Env) (rid : String) (st : PipelineState)
    (s : Source) (sources : List Source) (items0 : List Item)
    (hmem : s ∈ sources)
    (hfail : env.fetch s.url = .error ∨ env.fetch s.url = .empty) :
    ((process_source env rid st s).run_data.sources_failed
        = st.run_data.sources_failed + 1) ∧
    ((process_source env rid st s).logs = st.logs ++
        [{ run_id := rid, level := "info", message := s!"Processing source: {s.name}" },
         { run_id := rid, level := "error", message := s!"Failed to process source: {s.name}" }]) ∧
    ((process_source env rid st s).items = st.items) ∧
    ((process_source env rid st s).events = st.events) ∧
    ((process_source env rid st s).run_data.sources_ok = st.run_data.sources_ok) ∧
    (0 < (run_pipeline env rid sources items0).run_doc.sources_failed) ∧
    ((run_pipeline env rid sources items0).run_doc.status = "partial_failure" ∨
     (run_pipeline env rid sources items0).run_doc.status = "failure") ∧
    (0 < (run_pipeline env rid sources items0).run_doc.sources_ok →
        (run_pipeline env rid sources items0).run_doc.status = "partial_failure") := by
  obtain ⟨l1, l2, l3, l4, l5, l6⟩ := process_source_fail_fields env rid st s hfail
  have hfold : 0 < (pipeline_fold env rid sources items0).run_data.sources_failed :=
    foldl_failed_pos_of_mem env rid s hfail sources _ hmem
  have hbeq : ((pipeline_fold env rid sources items0).run_data.sources_failed == 0)
      = false := by
    simp
    omega
  refine ⟨l1, l2, l3, l4, l6, ?_, ?_, ?_⟩
  · rw [run_pipeline_run_doc]
    simpa using hfold
  · rw [run_pipeline_run_doc]
    simp only [final_status, hbeq]
    by_cases hok : 0 < (pipeline_fold env rid sources items0).run_data.sources_ok
    · left
      simp [hok]
    · right
      simp [hok]
  · intro hok
    rw [run_pipeline_run_doc] at hok ⊢
    simp only [final_status, hbeq]
    simp only at hok
    simp [hok]

/-- Witness for C6: under `env_w` the source `src_bad` fails while `src_ok`
succeeds; the failing step has exactly the local effects above, and the
two-source run ends in `partial_failure`. -/
theorem source_failure_isolation_witness :
    (src_bad ∈ ([src_ok, src_bad] : List Source)) ∧
    (env_w.fetch src_bad.url = .error ∨ env_w.fetch src_bad.url = .empty) ∧
    (((process_source env_w "r6" (pipeline_init 2 []) src_bad).run_data.sources_failed
        = (pipeline_init 2 []).run_data.sources_failed + 1) ∧
    ((process_source env_w "r6" (pipeline_init 2 []) src_bad).logs
        = (pipeline_init 2 []).logs ++
        [{ run_id := "r6", level := "info", message := s!"Processing source: {src_bad.name}" },
         { run_id := "r6", level := "error", message := s!"Failed to process source: {src_bad.name}" }]) ∧
    ((process_source env_w "r6" (pipeline_init 2 []) src_bad).items
        = (pipeline_init 2 []).items) ∧
    ((process_source env_w "r6" (pipeline_init 2 []) src_bad).events
        = (pipeline_init 2 []).events) ∧
    ((process_source env_w "r6" (pipeline_init 2 []) src_bad).run_data.sources_ok
        = (pipeline_init 2 []).run_data.sources_ok) ∧
    (0 < (run_pipeline env_w "r6" [src_ok, src_bad] []).run_doc.sources_failed) ∧
    ((run_pipeline env_w "r6" [src_ok, src_bad] []).run_doc.status = "partial_failure" ∨
     (run_pipeline env_w "r6" [src_ok, src_bad] []).run_doc.status = "failure") ∧
    (0 < (run_pipeline env_w "r6" [src_ok, src_bad] []).run_doc.sources_ok →
        (run_pipeline env_w "r6" [src_ok, src_bad] []).run_doc.status = "partial_failure")) :=
  ⟨by decide, by decide,
   source_failure_isolation env_w "r6" (pipeline_init 2 []) src_bad
     [src_ok, src_bad] [] (by decide) (by decide)⟩

/-- Counterexample for C7: a classifier response that is a JSON-parseable
dict but cannot be parsed into the expected `Event` structure is NOT treated
like `null` — `Event(**classification)` raises into the per-source handler,
so the fetched source is counted `sources_failed`, not `sources_ok`, and a
one-source run of this shape finalizes with status `"failure"`. -/
theorem fetched_source_failure_counterexample :
    ((process_source env_bad "rc7" (pipeline_init 1 []) src_ok).run_data.sources_failed
      = (pipeline_init 1 []).run_data.sources_failed + 1) ∧
    ((process_source env_bad "rc7" (pipeline_init 1 []) src_ok).run_data.sources_ok
      = (pipeline_init 1 []).run_data.sources_ok) ∧
    ((run_pipeline env_bad "rc7" [src_ok] []).run_doc.status = "failure") :=
  ⟨by decide, by decide, by decide⟩

/-- C7 (amended): for a NEW or UPDATED page of a fetched source, the Item is
always persisted and no Event is appended when classification does not yield
a structured result — but the two failure shapes diverge afterwards.  When
the classifier returns `null` or an unparseable response
(`classify_content = none`), `items_total` and the NEW/UPDATED counter are
bumped and the source is counted `sources_ok`.  When it returns a
JSON-parseable dict that fails Event-schema validation,
`Event(**classification)` raises after the Item write and the NEW/UPDATED
bump but before `items_total += 1`, and the per-source handler counts the
fetched source `sources_failed`. -/
theorem classification_null_no_event (env : Env)
    (rid markdown title : String) (st : PipelineState)
    (src : Source) (links : List String)
    (hact : detect_action (st.items.find? (fun it => it.url == src.url))
        (compute_hash env.sha256hex markdown) ≠ .UNCHANGED)
    (hfetch : env.fetch src.url = .page markdown title links) :
    (classify_content env markdown src.url title = none →
      ((outState (process_root_content env rid src.id src.url markdown title st)).items.find?
          (fun it => it.url == src.url)
        = some (fresh_item src.id src.url markdown title
            (compute_hash env.sha256hex markdown) st)) ∧
      ((outState (process_root_content env rid src.id src.url markdown title st)).run_data.items_total
        = st.run_data.items_total + 1) ∧
      (detect_action (st.items.find? (fun it => it.url == src.url))
          (compute_hash env.sha256hex markdown) = .NEW →
        (outState (process_root_content env rid src.id src.url markdown title st)).run_data.items_new
            = st.run_data.items_new + 1 ∧
        (outState (process_root_content env rid src.id src.url markdown title st)).run_data.items_updated
            = st.run_data.items_updated) ∧
      (detect_action (st.items.find? (fun it => it.url == src.url))
          (compute_hash env.sha256hex markdown) = .UPDATED →
        (outState (process_root_content env rid src.id src.url markdown title st)).run_data.items_updated
            = st.run_data.items_updated + 1 ∧
        (outState (process_root_content env rid src.id src.url markdown title st)).run_data.items_new
            = st.run_data.items_new) ∧
      ((outState (process_root_content env rid src.id src.url markdown title st)).events
        = st.events) ∧
      ((outState (process_root_content env rid src.id src.url markdown title st)).all_events
        = st.all_events) ∧
      ((outState (process_root_content env rid src.id src.url markdown title st)).run_data.events_created
        = st.run_data.events_created) ∧
      ((process_source env rid st src).run_data.sources_ok
        = st.run_data.sources_ok + 1) ∧
      ((process_source env rid st src).run_data.sources_failed
        = st.run_data.sources_failed)) ∧
    (classify_content env markdown src.url title = some ParsedDict.invalid →
      ((outState (process_root_content env rid src.id src.url markdown title st)).items.find?
          (fun it => it.url == src.url)
        = some (fresh_item src.id src.url markdown title
            (compute_hash env.sha256hex markdown) st)) ∧
      ((outState (process_root_content env rid src.id src.url markdown title st)).run_data.items_total
        = st.run_data.items_total) ∧
      (detect_action (st.items.find? (fun it => it.url == src.url))
          (compute_hash env.sha256hex markdown) = .NEW →
        (outState (process_root_content env rid src.id src.url markdown title st)).run_data.items_new
            = st.run_data.items_new + 1 ∧
        (outState (process_root_content env rid src.id src.url markdown title st)).run_data.items_updated
            = st.run_data.items_updated) ∧
      (detect_action (st.items.find? (fun it => it.url == src.url))
          (compute_hash env.sha256hex markdown) = .UPDATED →
        (outState (process_root_content env rid src.id src.url markdown title st)).run_data.items_updated
            = st.run_data.items_updated + 1 ∧
        (outState (process_root_content env rid src.id src.url markdown title st)).run_data.items_new
            = st.run_data.items_new) ∧
      ((outState (process_root_content env rid src.id src.url markdown title st)).events
        = st.events) ∧
      ((outState (process_root_content env rid src.id src.url markdown title st)).all_events
        = st.all_events) ∧
      ((outState (process_root_content env rid src.id src.url markdown title st)).run_data.events_created
        = st.run_data.events_created) ∧
      ((process_source env rid st src).run_data.sources_failed
        = st.run_data.sources_failed + 1) ∧
      ((process_source env rid st src).run_data.sources_ok
        = st.run_data.sources_ok)) := by
  constructor
  · intro hcls
    obtain ⟨pok, pfail⟩ := process_source_sources_of_page env rid st src markdown title
      links hfetch (by rw [hcls]; simp)
    cases hda : detect_action (st.items.find? (fun it => it.url == src.url))
        (compute_hash env.sha256hex markdown)
    case UNCHANGED => exact absurd hda hact
    case NEW =>
        have hnone : st.items.find? (fun it => it.url == src.url) = none :=
          (detect_action_eq_new_iff _ _).mp hda
        have hres : outState (process_root_content env rid src.id src.url markdown title st)
            = { st with
                  fresh := st.fresh + 1,
                  clock := st.clock + 1,
                  items := st.items ++ [fresh_item src.id src.url markdown title
                    (compute_hash env.sha256hex markdown) st],
                  run_data := { st.run_data with
                    items_new := st.run_data.items_new + 1,
                    items_total := st.run_data.items_total + 1 } } := by
          simp [process_root_content, hda,
            persist_and_classify_of_none env rid src.id src.url markdown title
              (compute_hash env.sha256hex markdown) true st hcls, outState]
        rw [hres]
        refine ⟨?_, by simp, fun _ => by simp, fun h => absurd h (by decide),
          by simp, by simp, by simp, pok, pfail⟩
        · show (st.items ++ [fresh_item src.id src.url markdown title
              (compute_hash env.sha256hex markdown) st]).find?
              (fun it => it.url == src.url) = _
          rw [find?_append_of_none _ _ _ hnone]
          simp [fresh_item]
    case UPDATED =>
        cases hex : st.items.find? (fun it => it.url == src.url) with
        | none =>
            rw [hex, detect_action_none] at hda
            cases hda
        | some ex =>
            have hres : outState (process_root_content env rid src.id src.url markdown title st)
                = { st with
                      fresh := st.fresh + 1,
                      clock := st.clock + 1,
                      items := updateItemByUrl st.items src.url
                        (fun _ => fresh_item src.id src.url markdown title
                          (compute_hash env.sha256hex markdown) st),
                      run_data := { st.run_data with
                        items_updated := st.run_data.items_updated + 1,
                        items_total := st.run_data.items_total + 1 } } := by
              simp [process_root_content, hda,
                persist_and_classify_of_none env rid src.id src.url markdown title
                  (compute_hash env.sha256hex markdown) false st hcls, outState]
            rw [hres]
            refine ⟨?_, by simp, fun h => absurd h (by decide), fun _ => by simp,
              by simp, by simp, by simp, pok, pfail⟩
            · show (updateItemByUrl st.items src.url
                  (fun _ => fresh_item src.id src.url markdown title
                    (compute_hash env.sha256hex markdown) st)).find?
                  (fun it => it.url == src.url) = _
              rw [find?_updateItemByUrl st.items src.url _ ex hex (by simp [fresh_item])]
  · intro hcls
    obtain ⟨pfail, pok⟩ := process_source_sources_of_invalid env rid st src markdown title
      links hfetch hcls hact
    cases hda : detect_action (st.items.find? (fun it => it.url == src.url))
        (compute_hash env.sha256hex markdown)
    case UNCHANGED => exact absurd hda hact
    case NEW =>
        have hnone : st.items.find? (fun it => it.url == src.url) = none :=
          (detect_action_eq_new_iff _ _).mp hda
        have hres : outState (process_root_content env rid src.id src.url markdown title st)
            = { st with
                  fresh := st.fresh + 1,
                  clock := st.clock + 1,
                  items := st.items ++ [fresh_item src.id src.url markdown title
                    (compute_hash env.sha256hex markdown) st],
                  run_data := { st.run_data with
                    items_new := st.run_data.items_new + 1 } } := by
          simp [process_root_content, hda,
            persist_and_classify_of_invalid env rid src.id src.url markdown title
              (compute_hash env.sha256hex markdown) true st hcls, outState]
        rw [hres]
        refine ⟨?_, by simp, fun _ => by simp, fun h => absurd h (by decide),
          by simp, by simp, by simp, pfail, pok⟩
        · show (st.items ++ [fresh_item src.id src.url markdown title
              (compute_hash env.sha256hex markdown) st]).find?
              (fun it => it.url == src.url) = _
          rw [find?_append_of_none _ _ _ hnone]
          simp [fresh_item]
    case UPDATED =>
        cases hex : st.items.find? (fun it => it.url == src.url) with
        | none =>
            rw [hex, detect_action_none] at hda
            cases hda
        | some ex =>
            have hres : outState (process_root_content env rid src.id src.url markdown title st)
                = { st with
                      fresh := st.fresh + 1,
                      clock := st.clock + 1,
                      items := updateItemByUrl st.items src.url
                        (fun _ => fresh_item src.id src.url markdown title
                          (compute_hash env.sha256hex markdown) st),
                      run_data := { st.run_data with
                        items_updated := st.run_data.items_updated + 1 } } := by
              simp [process_root_content, hda,
                persist_and_classify_of_invalid env rid src.id src.url markdown title
                  (compute_hash env.sha256hex markdown) false st hcls, outState]
            rw [hres]
            refine ⟨?_, by simp, fun h => absurd h (by decide), fun _ => by simp,
              by simp, by simp, by simp, pfail, pok⟩
            · show (updateItemByUrl st.items src.url
                  (fun _ => fresh_item src.id src.url markdown title
                    (compute_hash env.sha256hex markdown) st)).find?
                  (fun it => it.url == src.url) = _
              rw [find?_updateItemByUrl st.items src.url _ ex hex (by simp [fresh_item])]

/-- Witness for C7 (amended): a NEW page under `env_w` (classifier answers
`null`, so the first arm is the live one) is persisted with `items_new` and
`items_total` bumped, no event appended, and the source counted ok. -/
theorem classification_null_no_event_witness :
    (detect_action ((pipeline_init 1 []).items.find?
        (fun it => it.url == src_ok.url))
      (compute_hash env_w.sha256hex "BODY") ≠ .UNCHANGED) ∧
    (env_w.fetch src_ok.url = .page "BODY" "T" []) ∧
    ((classify_content env_w "BODY" src_ok.url "T" = none →
      ((outState (process_root_content env_w "r7" src_ok.id src_ok.url "BODY" "T"
          (pipeline_init 1 []))).items.find?
          (fun it => it.url == src_ok.url)
        = some (fresh_item src_ok.id src_ok.url "BODY" "T"
            (compute_hash env_w.sha256hex "BODY") (pipeline_init 1 []))) ∧
      ((outState (process_root_content env_w "r7" src_ok.id src_ok.url "BODY" "T"
          (pipeline_init 1 []))).run_data.items_total
        = (pipeline_init 1 []).run_data.items_total + 1) ∧
      (detect_action ((pipeline_init 1 []).items.find?
          (fun it => it.url == src_ok.url))
          (compute_hash env_w.sha256hex "BODY") = .NEW →
        (outState (process_root_content env_w "r7" src_ok.id src_ok.url "BODY" "T"
            (pipeline_init 1 []))).run_data.items_new
            = (pipeline_init 1 []).run_data.items_new + 1 ∧
        (outState (process_root_content env_w "r7" src_ok.id src_ok.url "BODY" "T"
            (pipeline_init 1 []))).run_data.items_updated
            = (pipeline_init 1 []).run_data.items_updated) ∧
      (detect_action ((pipeline_init 1 []).items.find?
          (fun it => it.url == src_ok.url))
          (compute_hash env_w.sha256hex "BODY") = .UPDATED →
        (outState (process_root_content env_w "r7" src_ok.id src_ok.url "BODY" "T"
            (pipeline_init 1 []))).run_data.items_updated
            = (pipeline_init 1 []).run_data.items_updated + 1 ∧
        (outState (process_root_content env_w "r7" src_ok.id src_ok.url "BODY" "T"
            (pipeline_init 1 []))).run_data.items_new
            = (pipeline_init 1 []).run_data.items_new) ∧
      ((outState (process_root_content env_w "r7" src_ok.id src_ok.url "BODY" "T"
          (pipeline_init 1 []))).events = (pipeline_init 1 []).events) ∧
      ((outState (process_root_content env_w "r7" src_ok.id src_ok.url "BODY" "T"
          (pipeline_init 1 []))).all_events = (pipeline_init 1 []).all_events) ∧
      ((outState (process_root_content env_w "r7" src_ok.id src_ok.url "BODY" "T"
          (pipeline_init 1 []))).run_data.events_created
        = (pipeline_init 1 []).run_data.events_created) ∧
      ((process_source env_w "r7" (pipeline_init 1 []) src_ok).run_data.sources_ok
        = (pipeline_init 1 []).run_data.sources_ok + 1) ∧
      ((process_source env_w "r7" (pipeline_init 1 []) src_ok).run_data.sources_failed
        = (pipeline_init 1 []).run_data.sources_failed)) ∧
    (classify_content env_w "BODY" src_ok.url "T" = some ParsedDict.invalid →
      ((outState (process_root_content env_w "r7" src_ok.id src_ok.url "BODY" "T"
          (pipeline_init 1 []))).items.find?
          (fun it => it.url == src_ok.url)
        = some (fresh_item src_ok.id src_ok.url "BODY" "T"
            (compute_hash env_w.sha256hex "BODY") (pipeline_init 1 []))) ∧
      ((outState (process_root_content env_w "r7" src_ok.id src_ok.url "BODY" "T"
          (pipeline_init 1 []))).run_data.items_total
        = (pipeline_init 1 []).run_data.items_total) ∧
      (detect_action ((pipeline_init 1 []).items.find?
          (fun it => it.url == src_ok.url))
          (compute_hash env_w.sha256hex "BODY") = .NEW →
        (outState (process_root_content env_w "r7" src_ok.id src_ok.url "BODY" "T"
            (pipeline_init 1 []))).run_data.items_new
            = (pipeline_init 1 []).run_data.items_new + 1 ∧
        (outState (process_root_content env_w "r7" src_ok.id src_ok.url "BODY" "T"
            (pipeline_init 1 []))).run_data.items_updated
            = (pipeline_init 1 []).run_data.items_updated) ∧
      (detect_action ((pipeline_init 1 []).items.find?
          (fun it => it.url == src_ok.url))
          (compute_hash env_w.sha256hex "BODY") = .UPDATED →
        (outState (process_root_content env_w "r7" src_ok.id src_ok.url "BODY" "T"
            (pipeline_init 1 []))).run_data.items_updated
            = (pipeline_init 1 []).run_data.items_updated + 1 ∧
        (outState (process_root_content env_w "r7" src_ok.id src_ok.url "BODY" "T"
            (pipeline_init 1 []))).run_data.items_new
            = (pipeline_init 1 []).run_data.items_new) ∧
      ((outState (process_root_content env_w "r7" src_ok.id src_ok.url "BODY" "T"
          (pipeline_init 1 []))).events = (pipeline_init 1 []).events) ∧
      ((outState (process_root_content env_w "r7" src_ok.id src_ok.url "BODY" "T"
          (pipeline_init 1 []))).all_events = (pipeline_init 1 []).all_events) ∧
      ((outState (process_root_content env_w "r7" src_ok.id src_ok.url "BODY" "T"
          (pipeline_init 1 []))).run_data.events_created
        = (pipeline_init 1 []).run_data.events_created) ∧
      ((process_source env_w "r7" (pipeline_init 1 []) src_ok).run_data.sources_failed
        = (pipeline_init 1 []).run_data.sources_failed + 1) ∧
      ((process_source env_w "r7" (pipeline_init 1 []) src_ok).run_data.sources_ok
        = (pipeline_init 1 []).run_data.sources_ok))) :=
  ⟨by decide, by decide,
   classification_null_no_event env_w "r7" "BODY" "T" (pipeline_init 1 [])
     src_ok [] (by decide) (by decide)⟩

theorem process_root_content_items_updated (env : Env) (rid sid url md t : String)
    (st : PipelineState)
    (hda : detect_action (st.items.find? (fun it => it.url == url))
        (compute_hash env.sha256hex md) = .UPDATED) :
    (outState (process_root_content env rid sid url md t st)).items
      = updateItemByUrl st.items url
          (fun _ => fresh_item sid url md t (compute_hash env.sha256hex md) st) := by
  have hx := persist_and_classify_items env rid sid url md t
    (compute_hash env.sha256hex md) false st
  simp only [process_root_content, hda]
  cases hpac : persist_and_classify env rid sid url md t
      (compute_hash env.sha256hex md) false st with
  | ok x =>
      rw [hpac] at hx
      simp [outState] at hx
      simpa [outState] using hx
  | error x =>
      rw [hpac] at hx
      simp [outState] at hx
      simpa [outState] using hx

theorem process_root_content_items_updated_count (env : Env) (rid sid url md t : String)
    (st : PipelineState)
    (hda : detect_action (st.items.find? (fun it => it.url == url))
        (compute_hash env.sha256hex md) = .UPDATED) :
    (outState (process_root_content env rid sid url md t st)).run_data.items_updated
      = st.run_data.items_updated + 1 := by
  have hx := (persist_and_classify_fields env rid sid url md t
    (compute_hash env.sha256hex md) false st).2.2.2.2.2.2.1
  simp at hx
  simp only [process_root_content, hda]
  cases hpac : persist_and_classify env rid sid url md t
      (compute_hash env.sha256hex md) false st with
  | ok x =>
      rw [hpac] at hx
      simp [outState] at hx
      simpa [outState] using hx
  | error x =>
      rw [hpac] at hx
      simp [outState] at hx
      simpa [outState] using hx

/-- Counterexample for C9: in a concrete UPDATED step, the stored Item's
identity and first-fetched time are NOT preserved — the pre-existing Item
`old_item` had `id = 7` and `fetched_at = 5`, but after root-page processing
of the changed page `"BODY"` the stored Item for the same URL carries the
fresh id 0 and fetched-at time 0 drawn from the state's counters, because
the code `$set`s the full dump of a freshly constructed Item. -/
theorem updated_overwrites_identity_counterexample :
    ((((outState (process_root_content env_w "r9" "s1" "https://ok.example/" "BODY" "T"
        (pipeline_init 1 [old_item]))).items.find?
        (fun it => it.url == "https://ok.example/")).map
      (fun it => (it.id, it.fetched_at))) = some (0, 0)) ∧
    ((((outState (process_root_content env_w "r9" "s1" "https://ok.example/" "BODY" "T"
        (pipeline_init 1 [old_item]))).items.find?
        (fun it => it.url == "https://ok.example/")).map
      (fun it => (it.id, it.fetched_at))) ≠ some (7, 5)) := by
  have htake : ("BODY" : String).take 12000 = "BODY" := by
    rw [String.take_eq, List.take_of_length_le (by decide)]
  have hch : compute_hash env_w.sha256hex "BODY" = "BODY" := by
    simpa [compute_hash, env_w] using htake
  have hfind : (pipeline_init 1 [old_item]).items.find?
      (fun it => it.url == "https://ok.example/") = some old_item := by decide
  have hne : old_item.content_hash ≠ compute_hash env_w.sha256hex "BODY" := by
    rw [hch]
    decide
  have hda : detect_action ((pipeline_init 1 [old_item]).items.find?
      (fun it => it.url == "https://ok.example/"))
      (compute_hash env_w.sha256hex "BODY") = .UPDATED := by
    rw [hfind, detect_action_some, if_neg hne]
  have hitems := process_root_content_items_updated env_w "r9" "s1"
    "https://ok.example/" "BODY" "T" (pipeline_init 1 [old_item]) hda
  have hstored := find?_updateItemByUrl (pipeline_init 1 [old_item]).items
    "https://ok.example/"
    (fun _ => fresh_item "s1" "https://ok.example/" "BODY" "T"
      (compute_hash env_w.sha256hex "BODY") (pipeline_init 1 [old_item]))
    old_item hfind rfl
  have hmap : ((((outState (process_root_content env_w "r9" "s1" "https://ok.example/" "BODY" "T"
      (pipeline_init 1 [old_item]))).items.find?
      (fun it => it.url == "https://ok.example/")).map
    (fun it => (it.id, it.fetched_at))) = some (0, 0)) := by
    rw [hitems, hstored]
    rfl
  refine ⟨hmap, ?_⟩
  rw [hmap]
  decide

/-- C9 (amended): on an UPDATED outcome the pipeline overwrites the stored
Item wholesale with the freshly constructed Item — content fields and the
fingerprint are updated, but the id and the first-fetched time are also
replaced by fresh values (only the URL keeps its value, being both the match
key and re-set to the same string); on an UNCHANGED outcome only the
last-seen timestamp of the existing Item is refreshed and every other field
(and the event log) is unchanged.  The Item write happens before the
classification step, so it stands whether or not classification raises. -/
theorem updated_unchanged_side_effects (env : Env)
    (rid sid url markdown title : String) (st : PipelineState) (ex : Item)
    (hfind : st.items.find? (fun it => it.url == url) = some ex) :
    (ex.content_hash ≠ compute_hash env.sha256hex markdown →
      (outState (process_root_content env rid sid url markdown title st)).items
        = updateItemByUrl st.items url (fun _ =>
            fresh_item sid url markdown title (compute_hash env.sha256hex markdown) st) ∧
      (outState (process_root_content env rid sid url markdown title st)).items.find?
          (fun it => it.url == url)
        = some (fresh_item sid url markdown title
            (compute_hash env.sha256hex markdown) st) ∧
      (outState (process_root_content env rid sid url markdown title st)).run_data.items_updated
        = st.run_data.items_updated + 1) ∧
    (ex.content_hash = compute_hash env.sha256hex markdown →
      (outState (process_root_content env rid sid url markdown title st)).items
        = updateItemByUrl st.items url (fun it => { it with last_seen_at := st.clock }) ∧
      (outState (process_root_content env rid sid url markdown title st)).items.find?
          (fun it => it.url == url)
        = some { ex with last_seen_at := st.clock } ∧
      (outState (process_root_content env rid sid url markdown title st)).events
        = st.events ∧
      (outState (process_root_content env rid sid url markdown title st)).all_events
        = st.all_events ∧
      (outState (process_root_content env rid sid url markdown title st)).run_data.items_unchanged
        = st.run_data.items_unchanged + 1 ∧
      (outState (process_root_content env rid sid url markdown title st)).run_data.items_new
        = st.run_data.items_new ∧
      (outState (process_root_content env rid sid url markdown title st)).run_data.items_updated
        = st.run_data.items_updated) := by
  have hurl : ex.url = url := by simpa using List.find?_some hfind
  constructor
  · intro hne
    have hda : detect_action (st.items.find? (fun it => it.url == url))
        (compute_hash env.sha256hex markdown) = .UPDATED := by
      rw [hfind, detect_action_some, if_neg hne]
    have hitems := process_root_content_items_updated env rid sid url markdown title st hda
    refine ⟨hitems, ?_, ?_⟩
    · rw [hitems]
      rw [find?_updateItemByUrl st.items url _ ex hfind (by simp [fresh_item])]
    · exact process_root_content_items_updated_count env rid sid url markdown title st hda
  · intro heq
    have hda : detect_action (st.items.find? (fun it => it.url == url))
        (compute_hash env.sha256hex markdown) = .UNCHANGED := by
      rw [hfind, detect_action_some, if_pos heq]
    have hitems : (outState (process_root_content env rid sid url markdown title st)).items
        = updateItemByUrl st.items url (fun it => { it with last_seen_at := st.clock }) := by
      simp only [process_root_content, hda, outState]
    refine ⟨hitems, ?_, ?_, ?_, ?_, ?_, ?_⟩
    · rw [hitems]
      exact find?_updateItemByUrl st.items url _ ex hfind hurl
    · simp only [process_root_content, hda, outState]
    · simp only [process_root_content, hda, outState]
    · simp only [process_root_content, hda, outState]
    · simp only [process_root_content, hda, outState]
    · simp only [process_root_content, hda, outState]

/-- Witness for C9 (amended): applying the theorem to the stored item
`old_item` (id 7, fetched-at 5, fingerprint "OLD") and the fetched page
`"BODY"`: the UPDATED arm replaces the whole record with the fresh Item. -/
theorem updated_unchanged_side_effects_witness :
    ((pipeline_init 1 [old_item]).items.find?
        (fun it => it.url == "https://ok.example/") = some old_item) ∧
    ((old_item.content_hash ≠ compute_hash env_w.sha256hex "BODY" →
      (outState (process_root_content env_w "r9w" "s1" "https://ok.example/" "BODY" "T"
          (pipeline_init 1 [old_item]))).items
        = updateItemByUrl (pipeline_init 1 [old_item]).items "https://ok.example/" (fun _ =>
            fresh_item "s1" "https://ok.example/" "BODY" "T"
              (compute_hash env_w.sha256hex "BODY") (pipeline_init 1 [old_item])) ∧
      (outState (process_root_content env_w "r9w" "s1" "https://ok.example/" "BODY" "T"
          (pipeline_init 1 [old_item]))).items.find?
          (fun it => it.url == "https://ok.example/")
        = some (fresh_item "s1" "https://ok.example/" "BODY" "T"
            (compute_hash env_w.sha256hex "BODY") (pipeline_init 1 [old_item])) ∧
      (outState (process_root_content env_w "r9w" "s1" "https://ok.example/" "BODY" "T"
          (pipeline_init 1 [old_item]))).run_data.items_updated
        = (pipeline_init 1 [old_item]).run_data.items_updated + 1) ∧
    (old_item.content_hash = compute_hash env_w.sha256hex "BODY" →
      (outState (process_root_content env_w "r9w" "s1" "https://ok.example/" "BODY" "T"
          (pipeline_init 1 [old_item]))).items
        = updateItemByUrl (pipeline_init 1 [old_item]).items "https://ok.example/"
            (fun it => { it with last_seen_at := (pipeline_init 1 [old_item]).clock }) ∧
      (outState (process_root_content env_w "r9w" "s1" "https://ok.example/" "BODY" "T"
          (pipeline_init 1 [old_item]))).items.find?
          (fun it => it.url == "https://ok.example/")
        = some { old_item with last_seen_at := (pipeline_init 1 [old_item]).clock } ∧
      (outState (process_root_content env_w "r9w" "s1" "https://ok.example/" "BODY" "T"
          (pipeline_init 1 [old_item]))).events = (pipeline_init 1 [old_item]).events ∧
      (outState (process_root_content env_w "r9w" "s1" "https://ok.example/" "BODY" "T"
          (pipeline_init 1 [old_item]))).all_events
        = (pipeline_init 1 [old_item]).all_events ∧
      (outState (process_root_content env_w "r9w" "s1" "https://ok.example/" "BODY" "T"
          (pipeline_init 1 [old_item]))).run_data.items_unchanged
        = (pipeline_init 1 [old_item]).run_data.items_unchanged + 1 ∧
      (outState (process_root_content env_w "r9w" "s1" "https://ok.example/" "BODY" "T"
          (pipeline_init 1 [old_item]))).run_data.items_new
        = (pipeline_init 1 [old_item]).run_data.items_new ∧
      (outState (process_root_content env_w "r9w" "s1" "https://ok.example/" "BODY" "T"
          (pipeline_init 1 [old_item]))).run_data.items_updated
        = (pipeline_init 1 [old_item]).run_data.items_updated)) :=
  ⟨by decide,
   updated_unchanged_side_effects env_w "r9w" "s1" "https://ok.example/" "BODY" "T"
     (pipeline_init 1 [old_item]) old_item (by decide)⟩

end SafarAI
